import Mathlib

/-
  Shallow embedding of the SyncGaze CS2-style physics core.

  Two variants of `cs2Physics.ts` live in the repository and are both cited by
  the claims:
    * `src/frontend/src/utils/cs2Physics.ts`  (namespace `Frontend` below):
      smoothed crouch height, friction with a STOP_SPEED floor and a zero-snap
      below 0.1, jump without stamina, 5-entry recoil pattern at scale 0.3
      with a multiplier argument, recovery rate 3.
    * `src/unnamed/part_004` (namespace `Part004` below): stamina economy,
      fixed 1.6 eye height, friction without a STOP_SPEED floor that leaves
      sub-epsilon velocities unchanged, 10-entry recoil pattern at scale 1.0,
      recovery rate 8.

  Numbers are embedded as real numbers; JavaScript float rounding is out of
  scope.  `performance.now()` readings are passed in as an explicit `now`
  argument, since a shallow embedding has no ambient clock.  `THREE.Vector*`
  operations are translated from the three.js sources: `length` is the
  Euclidean norm, `normalize` divides by `length() || 1` (so the zero vector
  stays zero), `divideScalar s` multiplies by `1 / s`, and `applyQuaternion`
  uses the `t = 2 cross(q.xyz, v); v + q.w t + cross(q.xyz, t)` formula.
-/

noncomputable section

open scoped Classical

/-- 2D vector, mirroring `THREE.Vector2` over the reals. -/
@[ext]
structure Vec2 where
  x : ℝ
  y : ℝ

namespace Vec2

def zero : Vec2 := ⟨0, 0⟩

def add (v w : Vec2) : Vec2 := ⟨v.x + w.x, v.y + w.y⟩

def sub (v w : Vec2) : Vec2 := ⟨v.x - w.x, v.y - w.y⟩

def multiplyScalar (v : Vec2) (s : ℝ) : Vec2 := ⟨v.x * s, v.y * s⟩

def divideScalar (v : Vec2) (s : ℝ) : Vec2 := v.multiplyScalar (1 / s)

def length (v : Vec2) : ℝ := Real.sqrt (v.x * v.x + v.y * v.y)

/-- `THREE.Vector2.normalize`: divide by `length() || 1`. -/
def normalize (v : Vec2) : Vec2 :=
  v.divideScalar (if v.length = 0 then 1 else v.length)

end Vec2

/-- 3D vector, mirroring `THREE.Vector3` over the reals. -/
@[ext]
structure Vec3 where
  x : ℝ
  y : ℝ
  z : ℝ

/-- Camera quaternion, mirroring `THREE.Quaternion`. -/
structure Quat where
  x : ℝ
  y : ℝ
  z : ℝ
  w : ℝ

namespace Vec3

def zero : Vec3 := ⟨0, 0, 0⟩

def add (v w : Vec3) : Vec3 := ⟨v.x + w.x, v.y + w.y, v.z + w.z⟩

def multiplyScalar (v : Vec3) (s : ℝ) : Vec3 := ⟨v.x * s, v.y * s, v.z * s⟩

def divideScalar (v : Vec3) (s : ℝ) : Vec3 := v.multiplyScalar (1 / s)

def addScaledVector (v w : Vec3) (s : ℝ) : Vec3 :=
  ⟨v.x + w.x * s, v.y + w.y * s, v.z + w.z * s⟩

def dot (v w : Vec3) : ℝ := v.x * w.x + v.y * w.y + v.z * w.z

def length (v : Vec3) : ℝ := Real.sqrt (v.x * v.x + v.y * v.y + v.z * v.z)

/-- `THREE.Vector3.normalize`: divide by `length() || 1`. -/
def normalize (v : Vec3) : Vec3 :=
  v.divideScalar (if v.length = 0 then 1 else v.length)

/-- `THREE.Vector3.applyQuaternion` (unit quaternion assumed by three.js). -/
def applyQuaternion (v : Vec3) (q : Quat) : Vec3 :=
  let tx := 2 * (q.y * v.z - q.z * v.y)
  let ty := 2 * (q.z * v.x - q.x * v.z)
  let tz := 2 * (q.x * v.y - q.y * v.x)
  ⟨v.x + q.w * tx + q.y * tz - q.z * ty,
   v.y + q.w * ty + q.z * tx - q.x * tz,
   v.z + q.w * tz + q.x * ty - q.y * tx⟩

end Vec3

/-- Per-tick input command: movement axes plus jump and crouch bits. -/
structure Input where
  forward : ℝ
  right : ℝ
  jump : Bool
  crouch : Bool

/-- Camera forward vector flattened to the horizontal plane and renormalized,
as computed identically in both variants of `updateMovement`:
`(0,0,-1).applyQuaternion(camera.quaternion); forward.y = 0; forward.normalize()`. -/
def camForward (q : Quat) : Vec3 :=
  let f := (Vec3.mk 0 0 (-1)).applyQuaternion q
  (Vec3.mk f.x 0 f.z).normalize

/-- Camera right vector flattened and renormalized, as in both variants. -/
def camRight (q : Quat) : Vec3 :=
  let r := (Vec3.mk 1 0 0).applyQuaternion q
  (Vec3.mk r.x 0 r.z).normalize

/-- Raw wish vector before normalization:
`wishDir.set(0,0,0); wishDir.addScaledVector(forward, input.forward);
wishDir.addScaledVector(right, input.right)`. -/
def wishRaw (i : Input) (q : Quat) : Vec3 :=
  (Vec3.zero.addScaledVector (camForward q) i.forward).addScaledVector (camRight q) i.right

/-!  Frontend variant: `src/frontend/src/utils/cs2Physics.ts`. -/

namespace Frontend

def WALK_SPEED : ℝ := 2.6

def CROUCH_MOVE_SPEED : ℝ := 1.0

def ACCELERATION : ℝ := 50

def GROUND_FRICTION : ℝ := 12.0

def AIR_ACCELERATION : ℝ := 10

def STOP_SPEED : ℝ := 1.0

def JUMP_VELOCITY : ℝ := 5.2

def GRAVITY : ℝ := 20

def HEAD_HEIGHT : ℝ := 1.7

def CROUCH_HEIGHT : ℝ := 1.2

def CROUCH_TRANSITION_SPEED : ℝ := 8

/-- Movement state of the frontend variant.  `isCrouching` is stored as the
proposition produced by the height-proximity comparison. -/
structure MovementState where
  velocity : Vec3
  position : Vec3
  isGrounded : Bool
  isCrouching : Prop
  currentHeight : ℝ
  targetHeight : ℝ

/-- Constructor state of `CS2Physics` in the frontend variant. -/
def initState : MovementState :=
  { velocity := Vec3.zero
    position := ⟨0, HEAD_HEIGHT, 0⟩
    isGrounded := true
    isCrouching := False
    currentHeight := HEAD_HEIGHT
    targetHeight := HEAD_HEIGHT }

/-- `THREE.MathUtils.lerp(x, y, t) = (1 - t) * x + t * y`. -/
def lerp (x y t : ℝ) : ℝ := (1 - t) * x + t * y

/-- `CS2Physics.accelerate` of the frontend variant. -/
def accelerate (s : MovementState) (wishDir : Vec3) (wishSpeed accel delta : ℝ) :
    MovementState :=
  let currentSpeed := s.velocity.dot wishDir
  let addSpeed := wishSpeed - currentSpeed
  if addSpeed ≤ 0 then s
  else
    let accelSpeed := min (accel * delta * wishSpeed) addSpeed
    { s with velocity := s.velocity.addScaledVector wishDir accelSpeed }

/-- `CS2Physics.applyFriction` of the frontend variant: grounded only, with a
zero-snap below speed 0.1, a `STOP_SPEED` control floor, and a zero-snap
instead of reversing when the drop exceeds the speed. -/
def applyFriction (s : MovementState) (delta : ℝ) : MovementState :=
  if s.isGrounded then
    let speed := s.velocity.length
    if speed < 0.1 then { s with velocity := Vec3.zero }
    else
      let control := if speed < STOP_SPEED then STOP_SPEED else speed
      let drop := control * GROUND_FRICTION * delta
      let newSpeed := speed - drop
      if newSpeed < 0 then { s with velocity := Vec3.zero }
      else { s with velocity := s.velocity.multiplyScalar (newSpeed / speed) }
  else s

/-- Step 1 of the frontend tick: smooth the crouch height toward its target
and recompute the derived `isCrouching` flag from height proximity. -/
def crouchStep (s : MovementState) (input : Input) (delta : ℝ) : MovementState :=
  let target := if input.crouch then CROUCH_HEIGHT else HEAD_HEIGHT
  let h := lerp s.currentHeight target (CROUCH_TRANSITION_SPEED * delta)
  { s with targetHeight := target, currentHeight := h,
           isCrouching := |h - CROUCH_HEIGHT| < 0.1 }

/-- Step 2 of the frontend tick: integrate gravity while airborne. -/
def gravityStep (s : MovementState) (delta : ℝ) : MovementState :=
  if s.isGrounded then s
  else { s with velocity := { s.velocity with y := s.velocity.y - GRAVITY * delta } }

/-- Steps 3-6 of the frontend tick: wish direction (normalized only when its
raw length exceeds 0.001), `wishSpeed` from the stored crouch flag, friction,
then ground or air acceleration with the `min(len, 1)`-scaled wish speed;
with no usable input, friction alone. -/
def moveStep (s : MovementState) (input : Input) (q : Quat) (delta : ℝ) :
    MovementState :=
  let wd := wishRaw input q
  let wishDirLength := wd.length
  let wishSpeed := if s.isCrouching then CROUCH_MOVE_SPEED else WALK_SPEED
  if wishDirLength > 0.001 then
    let u := wd.divideScalar wishDirLength
    let normalizedSpeed := min wishDirLength 1 * wishSpeed
    let sf := applyFriction s delta
    if sf.isGrounded then accelerate sf u normalizedSpeed ACCELERATION delta
    else accelerate sf u normalizedSpeed AIR_ACCELERATION delta
  else applyFriction s delta

/-- Frontend jump: no stamina gate. -/
def jumpStep (s : MovementState) (input : Input) : MovementState :=
  if input.jump && s.isGrounded then
    { s with velocity := { s.velocity with y := JUMP_VELOCITY }, isGrounded := false }
  else s

/-- Step 7: integrate the position. -/
def integrateStep (s : MovementState) (delta : ℝ) : MovementState :=
  { s with position := s.position.addScaledVector s.velocity delta }

/-- Steps 1-7 of the frontend `updateMovement` tick, in source order:
everything before the ground check. -/
def preGround (s : MovementState) (input : Input) (q : Quat) (delta : ℝ) :
    MovementState :=
  integrateStep
    (jumpStep (moveStep (gravityStep (crouchStep s input delta) delta) input q delta) input)
    delta

/-- Step 8 of the frontend tick: ground test against the smoothed eye height;
clamps `position.y`, zeroes `velocity.y` only when falling, and derives
`isGrounded`. -/
def groundCheck (s : MovementState) : MovementState :=
  if s.position.y ≤ s.currentHeight then
    { s with position := { s.position with y := s.currentHeight },
             velocity := if s.velocity.y < 0 then { s.velocity with y := 0 } else s.velocity,
             isGrounded := true }
  else { s with isGrounded := false }

/-- `CS2Physics.updateMovement` of the frontend variant (state transformer;
the source returns `position.clone()`, i.e. the `position` field of the
result). -/
def updateMovement (s : MovementState) (input : Input) (q : Quat) (delta : ℝ) :
    MovementState :=
  groundCheck (preGround s input q delta)

/-- Glock recoil pattern of the frontend variant (5 entries). -/
def glockRecoilPattern : List Vec2 :=
  [⟨0, -2.5⟩, ⟨-0.5, -2.8⟩, ⟨0.5, -3.0⟩, ⟨-0.8, -3.2⟩, ⟨1.0, -3.5⟩]

/-- Weapon state of the frontend variant. -/
structure WeaponState where
  recoilIndex : ℕ
  totalRecoil : Vec2
  lastShotTime : ℝ

/-- Fresh weapon state of the frontend variant. -/
def initWeapon : WeaponState :=
  { recoilIndex := 0, totalRecoil := Vec2.zero, lastShotTime := 0 }

/-- `CS2Physics.applyRecoil(multiplier)` of the frontend variant.  `now` is the
`performance.now()` reading recorded into `lastShotTime`.  Returns the per-shot
offset together with the new state.  The source indexes
`pattern[recoilIndex % pattern.length]`, always in bounds; `getD` with a zero
default embeds that total lookup. -/
def applyRecoil (w : WeaponState) (multiplier now : ℝ) : Vec2 × WeaponState :=
  let recoil := (glockRecoilPattern.getD (w.recoilIndex % glockRecoilPattern.length)
      Vec2.zero).multiplyScalar (0.3 * multiplier)
  (recoil,
   { recoilIndex := w.recoilIndex + 1
     totalRecoil := w.totalRecoil.add recoil
     lastShotTime := now })

/-- `CS2Physics.updateRecoilRecovery(delta)` of the frontend variant, recovery
rate 3; `now` is the `performance.now()` reading. -/
def updateRecoilRecovery (w : WeaponState) (delta now : ℝ) : Vec2 × WeaponState :=
  let timeSinceShot := (now - w.lastShotTime) / 1000
  let w1 := if timeSinceShot > 0.4 then { w with recoilIndex := w.recoilIndex - 1 } else w
  let recovery := 3 * delta
  let recoilLength := w1.totalRecoil.length
  let tr :=
    if recoilLength > 0 then
      let normalized := w1.totalRecoil.normalize
      let recoveryAmount := min recovery recoilLength
      w1.totalRecoil.sub (normalized.multiplyScalar recoveryAmount)
    else w1.totalRecoil
  (tr, { w1 with totalRecoil := tr })

/-- `calculateWeaponSway` of the frontend variant (pure in its arguments). -/
def calculateWeaponSway (velocity : Vec3) (time delta : ℝ) : Vec3 :=
  let speed := (Vec2.mk velocity.x velocity.z).length
  ⟨Real.sin (time * 5) * 0.003 * speed,
   Real.cos (time * 5 * 0.5) * 0.003 * speed,
   Real.sin (time * 5 * 0.7) * 0.003 * speed * 0.5⟩

/-- `calculateWeaponBob` of the frontend variant; reads `isGrounded`. -/
def calculateWeaponBob (s : MovementState) (velocity : Vec3) (time delta : ℝ) : ℝ :=
  if s.isGrounded then
    let speed := (Vec2.mk velocity.x velocity.z).length
    let normalizedSpeed := speed / WALK_SPEED
    Real.sin (time * 10 * normalizedSpeed) * 0.015 * normalizedSpeed
  else 0

end Frontend

/-!  Part004 variant: `src/unnamed/part_004` (`src/utils/cs2Physics.ts`). -/

namespace Part004

def WALK_SPEED : ℝ := 130

def RUN_SPEED : ℝ := 250

def CROUCH_SPEED : ℝ := 85

def ACCELERATION : ℝ := 10

def GROUND_FRICTION : ℝ := 4.0

def AIR_ACCELERATION : ℝ := 1000

def JUMP_VELOCITY : ℝ := 301.99

def GRAVITY : ℝ := 800

def AIR_CONTROL : ℝ := 0.7

def STAMINA_RECOVERY : ℝ := 0.5

def STAMINA_COST : ℝ := 80

def STAMINA_MAX : ℝ := 100

def STAMINA_LAND_COST : ℝ := 25

def RECOIL_RECOVERY : ℝ := 8

def RECOIL_PATTERN_SCALE : ℝ := 1.0

def BASE_INACCURACY : ℝ := 0.5

def MOVE_INACCURACY : ℝ := 15

def JUMP_INACCURACY : ℝ := 40

def CROUCH_ACCURACY_BONUS : ℝ := 0.5

/-- Movement state of the part_004 variant: stamina-gated, fixed eye height,
`isCrouching` stored as the input bit. -/
structure MovementState where
  velocity : Vec3
  position : Vec3
  isGrounded : Bool
  isCrouching : Bool
  stamina : ℝ
  moveSpeed : ℝ

/-- Constructor state of `CS2Physics` in the part_004 variant. -/
def initState : MovementState :=
  { velocity := Vec3.zero
    position := ⟨0, 1.6, 0⟩
    isGrounded := true
    isCrouching := false
    stamina := STAMINA_MAX
    moveSpeed := RUN_SPEED }

/-- `CS2Physics.accelerate` of the part_004 variant. -/
def accelerate (s : MovementState) (wishDir : Vec3) (wishSpeed accel delta : ℝ) :
    MovementState :=
  let currentSpeed := s.velocity.dot wishDir
  let addSpeed := wishSpeed - currentSpeed
  if addSpeed ≤ 0 then s
  else
    let accelSpeed := min (accel * delta * wishSpeed) addSpeed
    { s with velocity := s.velocity.addScaledVector wishDir accelSpeed }

/-- `CS2Physics.airAccelerate` of the part_004 variant.  Note the cap is on
`wishSpd` while `accelSpeed` still uses the uncapped `wishSpeed`, as in the
source. -/
def airAccelerate (s : MovementState) (wishDir : Vec3) (wishSpeed delta : ℝ) :
    MovementState :=
  let wishSpd := min wishSpeed 30
  let currentSpeed := s.velocity.dot wishDir
  let addSpeed := wishSpd - currentSpeed
  if addSpeed ≤ 0 then s
  else
    let accelSpeed := min (AIR_ACCELERATION * wishSpeed * delta) addSpeed
    { s with velocity := s.velocity.addScaledVector wishDir accelSpeed }

/-- `CS2Physics.applyFriction` of the part_004 variant: grounded only; below
speed 0.1 it RETURNS WITH THE VELOCITY UNCHANGED (no zero-snap), and the drop
uses the raw speed with no `STOP_SPEED` floor.  When `newSpeed = 0` the
velocity is multiplied by `0`. -/
def applyFriction (s : MovementState) (delta : ℝ) : MovementState :=
  if s.isGrounded then
    let speed := s.velocity.length
    if speed < 0.1 then s
    else
      let drop := speed * GROUND_FRICTION * delta
      let newSpeed := max (speed - drop) 0
      let factor := if newSpeed > 0 then newSpeed / speed else newSpeed
      { s with velocity := s.velocity.multiplyScalar factor }
  else s

/-- Part_004 gravity: integrate while airborne. -/
def gravityStep (s : MovementState) (delta : ℝ) : MovementState :=
  if s.isGrounded then s
  else { s with velocity := { s.velocity with y := s.velocity.y - GRAVITY * delta } }

/-- Part_004 normalized wish direction: divide by the length when positive. -/
def wishU (i : Input) (q : Quat) : Vec3 :=
  let wd := wishRaw i q
  if wd.length > 0 then wd.divideScalar wd.length else wd

/-- Part_004 crouch handling: `isCrouching` is the raw input bit; `moveSpeed`
is derived from it. -/
def crouchStep (s : MovementState) (input : Input) : MovementState :=
  { s with isCrouching := input.crouch,
           moveSpeed := if input.crouch then CROUCH_SPEED else RUN_SPEED }

/-- Part_004 stamina-gated jump. -/
def jumpStep (s : MovementState) (input : Input) : MovementState :=
  if input.jump = true ∧ s.isGrounded = true ∧ s.stamina > STAMINA_COST then
    { s with velocity := { s.velocity with y := JUMP_VELOCITY },
             isGrounded := false,
             stamina := s.stamina - STAMINA_COST }
  else s

/-- Part_004 acceleration dispatch: ground acceleration at `moveSpeed`, or air
acceleration at `moveSpeed * AIR_CONTROL`. -/
def accelStep (s : MovementState) (input : Input) (q : Quat) (delta : ℝ) :
    MovementState :=
  if s.isGrounded then accelerate s (wishU input q) s.moveSpeed ACCELERATION delta
  else airAccelerate s (wishU input q) (s.moveSpeed * AIR_CONTROL) delta

/-- Position integration. -/
def integrateStep (s : MovementState) (delta : ℝ) : MovementState :=
  { s with position := s.position.addScaledVector s.velocity delta }

/-- Steps of the part_004 `updateMovement` tick before the ground check, in
source order: gravity, crouch echo and move speed, friction, the
stamina-gated jump, ground/air acceleration, and position integration. -/
def preGround (s : MovementState) (input : Input) (q : Quat) (delta : ℝ) :
    MovementState :=
  integrateStep
    (accelStep (jumpStep (applyFriction (crouchStep (gravityStep s delta) input) delta)
      input) input q delta) delta

/-- Ground check and stamina steps of the part_004 tick: clamp to the fixed
1.6 eye height, zero `velocity.y` unconditionally, charge the landing cost
(clamped at 0) on an airborne-to-grounded transition, then regenerate stamina
toward `STAMINA_MAX` while grounded. -/
def groundAndRegen (s : MovementState) (delta : ℝ) : MovementState :=
  let s7 :=
    if s.position.y ≤ 1.6 then
      { s with position := { s.position with y := 1.6 },
               velocity := { s.velocity with y := 0 },
               stamina := if s.isGrounded then s.stamina
                          else max 0 (s.stamina - STAMINA_LAND_COST),
               isGrounded := true }
    else { s with isGrounded := false }
  if s7.isGrounded then
    { s7 with stamina := min STAMINA_MAX (s7.stamina + STAMINA_RECOVERY * delta) }
  else s7

/-- `CS2Physics.updateMovement` of the part_004 variant. -/
def updateMovement (s : MovementState) (input : Input) (q : Quat) (delta : ℝ) :
    MovementState :=
  groundAndRegen (preGround s input q delta) delta

/-- Weapon state of the part_004 variant. -/
structure WeaponState where
  recoilIndex : ℕ
  totalRecoil : Vec2
  inaccuracy : ℝ
  lastShotTime : ℝ

/-- Fresh weapon state of the part_004 variant. -/
def initWeapon : WeaponState :=
  { recoilIndex := 0, totalRecoil := Vec2.zero, inaccuracy := BASE_INACCURACY
    lastShotTime := 0 }

/-- Glock recoil pattern of the part_004 variant (10 entries). -/
def glockRecoilPattern : List Vec2 :=
  [⟨0, -2.5⟩, ⟨-0.5, -2.8⟩, ⟨0.5, -3.0⟩, ⟨-0.8, -3.2⟩, ⟨1.0, -3.5⟩,
   ⟨-1.2, -3.8⟩, ⟨1.5, -4.0⟩, ⟨-1.8, -4.2⟩, ⟨2.0, -4.5⟩, ⟨-2.2, -4.8⟩]

/-- `CS2Physics.applyRecoil()` of the part_004 variant (no multiplier). -/
def applyRecoil (w : WeaponState) (now : ℝ) : Vec2 × WeaponState :=
  let recoil := (glockRecoilPattern.getD (w.recoilIndex % glockRecoilPattern.length)
      Vec2.zero).multiplyScalar RECOIL_PATTERN_SCALE
  (recoil,
   { w with recoilIndex := w.recoilIndex + 1
            totalRecoil := w.totalRecoil.add recoil
            lastShotTime := now })

/-- `CS2Physics.updateRecoilRecovery(delta)` of the part_004 variant, recovery
rate `RECOIL_RECOVERY = 8`. -/
def updateRecoilRecovery (w : WeaponState) (delta now : ℝ) : Vec2 × WeaponState :=
  let timeSinceShot := (now - w.lastShotTime) / 1000
  let w1 := if timeSinceShot > 0.4 then { w with recoilIndex := w.recoilIndex - 1 } else w
  let recovery := RECOIL_RECOVERY * delta
  let recoilLength := w1.totalRecoil.length
  let tr :=
    if recoilLength > 0 then
      let normalized := w1.totalRecoil.normalize
      let recoveryAmount := min recovery recoilLength
      w1.totalRecoil.sub (normalized.multiplyScalar recoveryAmount)
    else w1.totalRecoil
  (tr, { w1 with totalRecoil := tr })

/-- `calculateInaccuracy()` of the part_004 variant. -/
def calculateInaccuracy (s : MovementState) : ℝ :=
  let base := BASE_INACCURACY
  let speed := (Vec2.mk s.velocity.x s.velocity.z).length
  let i1 := if speed > 10 then base + speed / s.moveSpeed * MOVE_INACCURACY else base
  let i2 := if s.isGrounded then i1 else i1 + JUMP_INACCURACY
  if s.isCrouching then i2 * CROUCH_ACCURACY_BONUS else i2

end Part004

/-!  Iteration helpers used by the claims. -/

/-- The diagonal input held in the no-diagonal-boost scenario:
`forward = 1, right = 1`, no jump, no crouch. -/
def diagInput : Input := ⟨1, 1, false, false⟩

/-- The normalized wish direction the frontend tick uses for `diagInput`
(the raw wish vector divided by its own length; the zero vector when the
raw length is zero, by the `1/0 = 0` convention). -/
def diagU (q : Quat) : Vec3 :=
  (wishRaw diagInput q).divideScalar (wishRaw diagInput q).length

namespace Frontend

/-- `n` frontend ticks with a fixed input, camera and delta. -/
def ticks (i : Input) (q : Quat) (δ : ℝ) : ℕ → MovementState → MovementState
  | 0, s => s
  | n + 1, s => updateMovement (ticks i q δ n s) i q δ

/-- `n` shots from the fresh frontend weapon state, multiplier 1, no recovery
in between (`now = 0` throughout; the clock reading does not affect
`applyRecoil`). -/
def shootN : ℕ → WeaponState
  | 0 => initWeapon
  | n + 1 => (applyRecoil (shootN n) 1 0).2

end Frontend

/-- Sum of a list of 2D vectors (for stating the recoil-accumulation claim). -/
def vecSum (l : List Vec2) : Vec2 := l.foldl Vec2.add Vec2.zero

/-!  Basic vector lemmas. -/

theorem Vec2.len_nonneg (v : Vec2) : 0 ≤ v.length := Real.sqrt_nonneg _

theorem Vec2.length_zero_iff (v : Vec2) : v.length = 0 ↔ v = Vec2.zero := by
  unfold Vec2.length
  rw [show v.x * v.x + v.y * v.y = v.x ^ 2 + v.y ^ 2 by ring,
    Real.sqrt_eq_zero (by positivity)]
  constructor
  · intro h
    have hx : v.x = 0 := by nlinarith [sq_nonneg v.x, sq_nonneg v.y]
    have hy : v.y = 0 := by nlinarith [sq_nonneg v.x, sq_nonneg v.y]
    cases v
    simp_all [Vec2.zero]
  · intro h
    subst h
    simp [Vec2.zero]

theorem Vec2.length_multiplyScalar (v : Vec2) (c : ℝ) :
    (v.multiplyScalar c).length = |c| * v.length := by
  unfold Vec2.length Vec2.multiplyScalar
  rw [show v.x * c * (v.x * c) + v.y * c * (v.y * c) = c ^ 2 * (v.x * v.x + v.y * v.y) by
    ring, Real.sqrt_mul (by positivity), Real.sqrt_sq_eq_abs]

theorem Vec2.mul_self_len (v : Vec2) : v.length * v.length = v.x * v.x + v.y * v.y := by
  unfold Vec2.length
  exact Real.mul_self_sqrt (by nlinarith [sq_nonneg v.x, sq_nonneg v.y])

theorem Vec3.length_nonneg (v : Vec3) : 0 ≤ v.length := Real.sqrt_nonneg _

theorem Vec3.mul_self_length (v : Vec3) :
    v.length * v.length = v.x * v.x + v.y * v.y + v.z * v.z := by
  unfold Vec3.length
  exact Real.mul_self_sqrt (by nlinarith [sq_nonneg v.x, sq_nonneg v.y, sq_nonneg v.z])

theorem Vec3.multiplyScalar_one (v : Vec3) : v.multiplyScalar 1 = v := by
  cases v
  simp [Vec3.multiplyScalar]

theorem Vec3.multiplyScalar_zero (v : Vec3) : v.multiplyScalar 0 = Vec3.zero := by
  cases v
  simp [Vec3.multiplyScalar, Vec3.zero]

/-- The wish vector built from flattened camera axes always has a zero
vertical component, in both variants. -/
theorem wishRaw_y (i : Input) (q : Quat) : (wishRaw i q).y = 0 := by
  simp [wishRaw, camForward, camRight, Vec3.normalize, Vec3.divideScalar,
    Vec3.multiplyScalar, Vec3.addScaledVector, Vec3.zero]

/-!  Field-preservation lemmas for the frontend operations. -/

namespace Frontend

theorem applyFriction_isGrounded (s : MovementState) (δ : ℝ) :
    (applyFriction s δ).isGrounded = s.isGrounded := by
  unfold applyFriction
  dsimp only
  split_ifs <;> rfl

theorem applyFriction_isCrouching (s : MovementState) (δ : ℝ) :
    (applyFriction s δ).isCrouching = s.isCrouching := by
  unfold applyFriction
  dsimp only
  split_ifs <;> rfl

theorem applyFriction_currentHeight (s : MovementState) (δ : ℝ) :
    (applyFriction s δ).currentHeight = s.currentHeight := by
  unfold applyFriction
  dsimp only
  split_ifs <;> rfl

theorem applyFriction_position (s : MovementState) (δ : ℝ) :
    (applyFriction s δ).position = s.position := by
  unfold applyFriction
  dsimp only
  split_ifs <;> rfl

theorem accelerate_isGrounded (s : MovementState) (u : Vec3) (ws ac δ : ℝ) :
    (accelerate s u ws ac δ).isGrounded = s.isGrounded := by
  unfold accelerate
  dsimp only
  split_ifs <;> rfl

theorem accelerate_isCrouching (s : MovementState) (u : Vec3) (ws ac δ : ℝ) :
    (accelerate s u ws ac δ).isCrouching = s.isCrouching := by
  unfold accelerate
  dsimp only
  split_ifs <;> rfl

theorem accelerate_currentHeight (s : MovementState) (u : Vec3) (ws ac δ : ℝ) :
    (accelerate s u ws ac δ).currentHeight = s.currentHeight := by
  unfold accelerate
  dsimp only
  split_ifs <;> rfl

theorem accelerate_position (s : MovementState) (u : Vec3) (ws ac δ : ℝ) :
    (accelerate s u ws ac δ).position = s.position := by
  unfold accelerate
  dsimp only
  split_ifs <;> rfl

theorem groundCheck_isCrouching (s : MovementState) :
    (groundCheck s).isCrouching = s.isCrouching := by
  unfold groundCheck
  dsimp only
  split_ifs <;> rfl

theorem groundCheck_currentHeight (s : MovementState) :
    (groundCheck s).currentHeight = s.currentHeight := by
  unfold groundCheck
  dsimp only
  split_ifs <;> rfl

theorem groundCheck_velocity_x (s : MovementState) :
    (groundCheck s).velocity.x = s.velocity.x := by
  unfold groundCheck
  dsimp only
  split_ifs <;> rfl

theorem groundCheck_velocity_z (s : MovementState) :
    (groundCheck s).velocity.z = s.velocity.z := by
  unfold groundCheck
  dsimp only
  split_ifs <;> rfl

/-- Frontend friction always rescales the velocity by a factor in `[0, 1]`
(1 when airborne, 0 on either zero-snap): friction can stop motion but never
reverse it. -/
theorem applyFriction_scale (s : MovementState) (δ : ℝ) (hδ : 0 ≤ δ) :
    ∃ c, 0 ≤ c ∧ c ≤ 1 ∧ (applyFriction s δ).velocity = s.velocity.multiplyScalar c := by
  unfold applyFriction
  dsimp only
  set ctl : ℝ := if s.velocity.length < STOP_SPEED then STOP_SPEED else s.velocity.length
    with hctl
  have hctl0 : 0 ≤ ctl := by
    rw [hctl]
    split_ifs with h
    · norm_num [STOP_SPEED]
    · exact s.velocity.length_nonneg
  have hdrop : 0 ≤ ctl * GROUND_FRICTION * δ := by
    have hf : (0:ℝ) ≤ GROUND_FRICTION := by norm_num [GROUND_FRICTION]
    positivity
  split_ifs with hg h1 h2
  · exact ⟨0, le_refl 0, by norm_num, (Vec3.multiplyScalar_zero _).symm⟩
  · exact ⟨0, le_refl 0, by norm_num, (Vec3.multiplyScalar_zero _).symm⟩
  · push_neg at h1 h2
    have hpos : 0 < s.velocity.length := lt_of_lt_of_le (by norm_num) h1
    refine ⟨_, div_nonneg h2 hpos.le, ?_, rfl⟩
    rw [div_le_one hpos]
    linarith
  · exact ⟨1, by norm_num, by norm_num, (Vec3.multiplyScalar_one _).symm⟩

end Frontend

/-!  Field-preservation lemmas for the part_004 operations. -/

namespace Part004

theorem applyFriction_isGrounded_p4 (s : MovementState) (δ : ℝ) :
    (applyFriction s δ).isGrounded = s.isGrounded := by
  unfold applyFriction
  dsimp only
  split_ifs <;> rfl

theorem applyFriction_isCrouching_p4 (s : MovementState) (δ : ℝ) :
    (applyFriction s δ).isCrouching = s.isCrouching := by
  unfold applyFriction
  dsimp only
  split_ifs <;> rfl

theorem applyFriction_stamina (s : MovementState) (δ : ℝ) :
    (applyFriction s δ).stamina = s.stamina := by
  unfold applyFriction
  dsimp only
  split_ifs <;> rfl

theorem applyFriction_moveSpeed (s : MovementState) (δ : ℝ) :
    (applyFriction s δ).moveSpeed = s.moveSpeed := by
  unfold applyFriction
  dsimp only
  split_ifs <;> rfl

theorem applyFriction_position_p4 (s : MovementState) (δ : ℝ) :
    (applyFriction s δ).position = s.position := by
  unfold applyFriction
  dsimp only
  split_ifs <;> rfl

/-- Part_004 friction also only rescales the velocity by a factor in `[0, 1]`. -/
theorem applyFriction_scale_p4 (s : MovementState) (δ : ℝ) (hδ : 0 ≤ δ) :
    ∃ c, 0 ≤ c ∧ c ≤ 1 ∧ (applyFriction s δ).velocity = s.velocity.multiplyScalar c := by
  unfold applyFriction
  dsimp only
  split_ifs with hg h1 h2
  · exact ⟨1, by norm_num, by norm_num, (Vec3.multiplyScalar_one _).symm⟩
  · push_neg at h1
    have hpos : 0 < s.velocity.length := lt_of_lt_of_le (by norm_num) h1
    have hdrop : 0 ≤ s.velocity.length * GROUND_FRICTION * δ := by
      have hf : (0:ℝ) ≤ GROUND_FRICTION := by norm_num [GROUND_FRICTION]
      positivity
    refine ⟨_, div_nonneg (le_max_right _ _) hpos.le, ?_, rfl⟩
    rw [div_le_one hpos]
    rw [max_le_iff]
    constructor <;> linarith
  · push_neg at h1 h2
    have hc0 : max (s.velocity.length - s.velocity.length * GROUND_FRICTION * δ) 0 = 0 :=
      le_antisymm h2 (le_max_right _ _)
    exact ⟨_, le_max_right _ _, by rw [hc0]; norm_num, rfl⟩
  · exact ⟨1, by norm_num, by norm_num, (Vec3.multiplyScalar_one _).symm⟩

theorem accelerate_isGrounded_p4 (s : MovementState) (u : Vec3) (ws ac δ : ℝ) :
    (accelerate s u ws ac δ).isGrounded = s.isGrounded := by
  unfold accelerate
  dsimp only
  split_ifs <;> rfl

theorem accelerate_isCrouching_p4 (s : MovementState) (u : Vec3) (ws ac δ : ℝ) :
    (accelerate s u ws ac δ).isCrouching = s.isCrouching := by
  unfold accelerate
  dsimp only
  split_ifs <;> rfl

theorem accelerate_stamina (s : MovementState) (u : Vec3) (ws ac δ : ℝ) :
    (accelerate s u ws ac δ).stamina = s.stamina := by
  unfold accelerate
  dsimp only
  split_ifs <;> rfl

theorem accelerate_position_p4 (s : MovementState) (u : Vec3) (ws ac δ : ℝ) :
    (accelerate s u ws ac δ).position = s.position := by
  unfold accelerate
  dsimp only
  split_ifs <;> rfl

theorem accelerate_velocity_y (s : MovementState) (u : Vec3) (ws ac δ : ℝ)
    (hu : u.y = 0) : (accelerate s u ws ac δ).velocity.y = s.velocity.y := by
  unfold accelerate
  dsimp only
  split_ifs with h
  · rfl
  · simp [Vec3.addScaledVector, hu]

theorem airAccelerate_isGrounded (s : MovementState) (u : Vec3) (ws δ : ℝ) :
    (airAccelerate s u ws δ).isGrounded = s.isGrounded := by
  unfold airAccelerate
  dsimp only
  split_ifs <;> rfl

theorem airAccelerate_isCrouching (s : MovementState) (u : Vec3) (ws δ : ℝ) :
    (airAccelerate s u ws δ).isCrouching = s.isCrouching := by
  unfold airAccelerate
  dsimp only
  split_ifs <;> rfl

theorem airAccelerate_stamina (s : MovementState) (u : Vec3) (ws δ : ℝ) :
    (airAccelerate s u ws δ).stamina = s.stamina := by
  unfold airAccelerate
  dsimp only
  split_ifs <;> rfl

theorem airAccelerate_position (s : MovementState) (u : Vec3) (ws δ : ℝ) :
    (airAccelerate s u ws δ).position = s.position := by
  unfold airAccelerate
  dsimp only
  split_ifs <;> rfl

theorem airAccelerate_velocity_y (s : MovementState) (u : Vec3) (ws δ : ℝ)
    (hu : u.y = 0) : (airAccelerate s u ws δ).velocity.y = s.velocity.y := by
  unfold airAccelerate
  dsimp only
  split_ifs with h
  · rfl
  · simp [Vec3.addScaledVector, hu]

end Part004

namespace Part004

theorem applyFriction_velocity_y0_p4 (s : MovementState) (δ : ℝ) (h : s.velocity.y = 0) :
    (applyFriction s δ).velocity.y = 0 := by
  unfold applyFriction
  dsimp only
  split_ifs <;> simp [Vec3.multiplyScalar, h]

/-- Airborne states pass through part_004 friction unchanged. -/
theorem applyFriction_airborne_p4 (s : MovementState) (δ : ℝ) (h : s.isGrounded = false) :
    applyFriction s δ = s := by
  unfold applyFriction
  rw [if_neg (by simp [h])]

/-- The part_004 normalized wish direction has no vertical component. -/
theorem wishU_y (i : Input) (q : Quat) : (wishU i q).y = 0 := by
  unfold wishU
  dsimp only
  split_ifs <;> simp [Vec3.divideScalar, Vec3.multiplyScalar, wishRaw_y]

theorem gravityStep_stamina (s : MovementState) (δ : ℝ) :
    (gravityStep s δ).stamina = s.stamina := by
  unfold gravityStep
  split_ifs <;> rfl

theorem gravityStep_isGrounded_p4 (s : MovementState) (δ : ℝ) :
    (gravityStep s δ).isGrounded = s.isGrounded := by
  unfold gravityStep
  split_ifs <;> rfl

theorem gravityStep_isCrouching_p4 (s : MovementState) (δ : ℝ) :
    (gravityStep s δ).isCrouching = s.isCrouching := by
  unfold gravityStep
  split_ifs <;> rfl

theorem gravityStep_position_p4 (s : MovementState) (δ : ℝ) :
    (gravityStep s δ).position = s.position := by
  unfold gravityStep
  split_ifs <;> rfl

theorem gravityStep_grounded_p4 (s : MovementState) (δ : ℝ) (h : s.isGrounded = true) :
    gravityStep s δ = s := by
  unfold gravityStep
  rw [if_pos h]

theorem gravityStep_velocity_y_air (s : MovementState) (δ : ℝ) (h : s.isGrounded = false) :
    (gravityStep s δ).velocity.y = s.velocity.y - GRAVITY * δ := by
  unfold gravityStep
  rw [if_neg (by simp [h])]

theorem jumpStep_stamina (s : MovementState) (i : Input) :
    (jumpStep s i).stamina =
      if i.jump = true ∧ s.isGrounded = true ∧ s.stamina > STAMINA_COST
      then s.stamina - STAMINA_COST else s.stamina := by
  unfold jumpStep
  split_ifs <;> rfl

theorem jumpStep_isGrounded_p4 (s : MovementState) (i : Input) :
    (jumpStep s i).isGrounded =
      if i.jump = true ∧ s.isGrounded = true ∧ s.stamina > STAMINA_COST
      then false else s.isGrounded := by
  unfold jumpStep
  split_ifs <;> rfl

theorem jumpStep_isCrouching_p4 (s : MovementState) (i : Input) :
    (jumpStep s i).isCrouching = s.isCrouching := by
  unfold jumpStep
  split_ifs <;> rfl

theorem jumpStep_moveSpeed (s : MovementState) (i : Input) :
    (jumpStep s i).moveSpeed = s.moveSpeed := by
  unfold jumpStep
  split_ifs <;> rfl

theorem jumpStep_position_p4 (s : MovementState) (i : Input) :
    (jumpStep s i).position = s.position := by
  unfold jumpStep
  split_ifs <;> rfl

theorem jumpStep_velocity_y (s : MovementState) (i : Input) :
    (jumpStep s i).velocity.y =
      if i.jump = true ∧ s.isGrounded = true ∧ s.stamina > STAMINA_COST
      then JUMP_VELOCITY else s.velocity.y := by
  unfold jumpStep
  split_ifs <;> rfl

theorem jumpStep_velocity_x (s : MovementState) (i : Input) :
    (jumpStep s i).velocity.x = s.velocity.x := by
  unfold jumpStep
  split_ifs <;> rfl

theorem jumpStep_velocity_z (s : MovementState) (i : Input) :
    (jumpStep s i).velocity.z = s.velocity.z := by
  unfold jumpStep
  split_ifs <;> rfl

theorem accelStep_stamina (s : MovementState) (i : Input) (q : Quat) (δ : ℝ) :
    (accelStep s i q δ).stamina = s.stamina := by
  unfold accelStep
  split_ifs
  · exact accelerate_stamina _ _ _ _ _
  · exact airAccelerate_stamina _ _ _ _

theorem accelStep_isGrounded (s : MovementState) (i : Input) (q : Quat) (δ : ℝ) :
    (accelStep s i q δ).isGrounded = s.isGrounded := by
  unfold accelStep
  split_ifs
  · exact accelerate_isGrounded_p4 _ _ _ _ _
  · exact airAccelerate_isGrounded _ _ _ _

theorem accelStep_isCrouching (s : MovementState) (i : Input) (q : Quat) (δ : ℝ) :
    (accelStep s i q δ).isCrouching = s.isCrouching := by
  unfold accelStep
  split_ifs
  · exact accelerate_isCrouching_p4 _ _ _ _ _
  · exact airAccelerate_isCrouching _ _ _ _

theorem accelStep_position (s : MovementState) (i : Input) (q : Quat) (δ : ℝ) :
    (accelStep s i q δ).position = s.position := by
  unfold accelStep
  split_ifs
  · exact accelerate_position_p4 _ _ _ _ _
  · exact airAccelerate_position _ _ _ _

theorem accelStep_velocity_y (s : MovementState) (i : Input) (q : Quat) (δ : ℝ) :
    (accelStep s i q δ).velocity.y = s.velocity.y := by
  unfold accelStep
  split_ifs
  · exact accelerate_velocity_y _ _ _ _ _ (wishU_y i q)
  · exact airAccelerate_velocity_y _ _ _ _ (wishU_y i q)

theorem crouchStep_velocity_p4 (s : MovementState) (i : Input) :
    (crouchStep s i).velocity = s.velocity := rfl

theorem crouchStep_stamina (s : MovementState) (i : Input) :
    (crouchStep s i).stamina = s.stamina := rfl

theorem crouchStep_isGrounded (s : MovementState) (i : Input) :
    (crouchStep s i).isGrounded = s.isGrounded := rfl

theorem crouchStep_position (s : MovementState) (i : Input) :
    (crouchStep s i).position = s.position := rfl

theorem integrateStep_velocity_p4 (s : MovementState) (δ : ℝ) :
    (integrateStep s δ).velocity = s.velocity := rfl

theorem integrateStep_stamina (s : MovementState) (δ : ℝ) :
    (integrateStep s δ).stamina = s.stamina := rfl

theorem integrateStep_isGrounded (s : MovementState) (δ : ℝ) :
    (integrateStep s δ).isGrounded = s.isGrounded := rfl

theorem integrateStep_isCrouching_p4 (s : MovementState) (δ : ℝ) :
    (integrateStep s δ).isCrouching = s.isCrouching := rfl

theorem integrateStep_position_p4 (s : MovementState) (δ : ℝ) :
    (integrateStep s δ).position = s.position.addScaledVector s.velocity δ := rfl

/-- Stamina after the pre-ground steps: only the (gated) jump touches it. -/
theorem preGround_stamina (s : MovementState) (i : Input) (q : Quat) (δ : ℝ) :
    (preGround s i q δ).stamina =
      if i.jump = true ∧ s.isGrounded = true ∧ s.stamina > STAMINA_COST
      then s.stamina - STAMINA_COST else s.stamina := by
  unfold preGround
  rw [integrateStep_stamina, accelStep_stamina, jumpStep_stamina, applyFriction_stamina,
    applyFriction_isGrounded_p4, crouchStep_stamina, crouchStep_isGrounded,
    gravityStep_stamina, gravityStep_isGrounded_p4]

/-- Grounded flag after the pre-ground steps: only the jump clears it. -/
theorem preGround_isGrounded (s : MovementState) (i : Input) (q : Quat) (δ : ℝ) :
    (preGround s i q δ).isGrounded =
      if i.jump = true ∧ s.isGrounded = true ∧ s.stamina > STAMINA_COST
      then false else s.isGrounded := by
  unfold preGround
  rw [integrateStep_isGrounded, accelStep_isGrounded, jumpStep_isGrounded_p4,
    applyFriction_stamina, applyFriction_isGrounded_p4, crouchStep_stamina,
    crouchStep_isGrounded, gravityStep_stamina, gravityStep_isGrounded_p4]

/-- The crouch flag after the pre-ground steps is the raw input bit. -/
theorem preGround_isCrouching (s : MovementState) (i : Input) (q : Quat) (δ : ℝ) :
    (preGround s i q δ).isCrouching = i.crouch := by
  unfold preGround
  rw [integrateStep_isCrouching_p4, accelStep_isCrouching, jumpStep_isCrouching_p4,
    applyFriction_isCrouching_p4]
  rfl

/-- Position after the pre-ground steps: the old position advanced by the
post-step velocity times delta. -/
theorem preGround_position_p4 (s : MovementState) (i : Input) (q : Quat) (δ : ℝ) :
    (preGround s i q δ).position =
      s.position.addScaledVector (preGround s i q δ).velocity δ := by
  unfold preGround
  rw [integrateStep_position_p4, integrateStep_velocity_p4, accelStep_position, jumpStep_position_p4,
    applyFriction_position_p4, crouchStep_position, gravityStep_position_p4]

/-- Vertical velocity after the pre-ground steps, from a grounded state with
zero vertical velocity: `JUMP_VELOCITY` exactly when the gated jump fires,
otherwise still zero. -/
theorem preGround_velocity_y_grounded (s : MovementState) (i : Input) (q : Quat) (δ : ℝ)
    (hg : s.isGrounded = true) (hvy : s.velocity.y = 0) :
    (preGround s i q δ).velocity.y =
      if i.jump = true ∧ s.stamina > STAMINA_COST then JUMP_VELOCITY else 0 := by
  unfold preGround
  rw [show (integrateStep (accelStep (jumpStep (applyFriction (crouchStep
      (gravityStep s δ) i) δ) i) i q δ) δ).velocity =
      (accelStep (jumpStep (applyFriction (crouchStep (gravityStep s δ) i) δ) i) i q δ).velocity
    from rfl]
  rw [accelStep_velocity_y, jumpStep_velocity_y, applyFriction_stamina,
    applyFriction_isGrounded_p4, crouchStep_stamina, crouchStep_isGrounded,
    gravityStep_stamina, gravityStep_isGrounded_p4, gravityStep_grounded_p4 s δ hg, hg]
  have h0 : (applyFriction (crouchStep s i) δ).velocity.y = 0 :=
    applyFriction_velocity_y0_p4 _ _ hvy
  rw [h0]
  simp only [eq_self_iff_true, true_and]

/-- Vertical velocity after the pre-ground steps from an airborne state:
gravity is integrated and nothing else touches it (the jump cannot fire). -/
theorem preGround_velocity_y_air (s : MovementState) (i : Input) (q : Quat) (δ : ℝ)
    (hg : s.isGrounded = false) :
    (preGround s i q δ).velocity.y = s.velocity.y - GRAVITY * δ := by
  unfold preGround
  rw [show (integrateStep (accelStep (jumpStep (applyFriction (crouchStep
      (gravityStep s δ) i) δ) i) i q δ) δ).velocity =
      (accelStep (jumpStep (applyFriction (crouchStep (gravityStep s δ) i) δ) i) i q δ).velocity
    from rfl]
  rw [accelStep_velocity_y, jumpStep_velocity_y, applyFriction_stamina,
    applyFriction_isGrounded_p4, crouchStep_stamina, crouchStep_isGrounded,
    gravityStep_stamina, gravityStep_isGrounded_p4, hg]
  rw [if_neg (by rintro ⟨-, h, -⟩; exact Bool.false_ne_true h)]
  have hair : (crouchStep (gravityStep s δ) i).isGrounded = false := by
    rw [crouchStep_isGrounded, gravityStep_isGrounded_p4, hg]
  rw [applyFriction_airborne_p4 _ _ hair]
  rw [show (crouchStep (gravityStep s δ) i).velocity = (gravityStep s δ).velocity from rfl]
  exact gravityStep_velocity_y_air s δ hg

/-- Stamina is untouched by the pre-ground steps of an airborne tick. -/
theorem preGround_stamina_air (s : MovementState) (i : Input) (q : Quat) (δ : ℝ)
    (hg : s.isGrounded = false) :
    (preGround s i q δ).stamina = s.stamina := by
  rw [preGround_stamina]
  rw [if_neg]
  rintro ⟨-, h, -⟩
  rw [hg] at h
  exact Bool.false_ne_true h

/-- Ground-and-stamina step when the integrated position stays above the eye
height: only the grounded flag is cleared. -/
theorem groundAndRegen_air (t : MovementState) (δ : ℝ) (h : ¬ t.position.y ≤ 1.6) :
    groundAndRegen t δ = { t with isGrounded := false } := by
  unfold groundAndRegen
  dsimp only
  rw [if_neg h, if_neg (by simp)]

/-- Ground-and-stamina step when the integrated position is at or below the
eye height: clamp, zero the vertical velocity, charge the (clamped) landing
cost on an airborne-to-grounded transition, then regenerate. -/
theorem groundAndRegen_land (t : MovementState) (δ : ℝ) (h : t.position.y ≤ 1.6) :
    groundAndRegen t δ =
      { t with position := { t.position with y := 1.6 },
               velocity := { t.velocity with y := 0 },
               stamina := min STAMINA_MAX
                 ((if t.isGrounded = true then t.stamina
                   else max 0 (t.stamina - STAMINA_LAND_COST)) + STAMINA_RECOVERY * δ),
               isGrounded := true } := by
  unfold groundAndRegen
  dsimp only
  rw [if_pos h, if_pos rfl]

end Part004

/-!  More helper lemmas for the claims. -/

namespace Frontend

/-- Airborne states pass through frontend friction unchanged. -/
theorem applyFriction_airborne (s : MovementState) (δ : ℝ) (h : s.isGrounded = false) :
    applyFriction s δ = s := by
  unfold applyFriction
  rw [if_neg (by simp [h])]

/-- The frontend ground test never zeroes an upward vertical velocity. -/
theorem groundCheck_velocity_y_pos (s : MovementState) (h : 0 < s.velocity.y) :
    (groundCheck s).velocity.y = s.velocity.y := by
  unfold groundCheck
  dsimp only
  rw [if_neg (not_lt_of_gt h)]
  split_ifs <;> rfl

end Frontend

/-- The `control = (speed < STOP_SPEED ? STOP_SPEED : speed)` selection is the
maximum of the two. -/
theorem ite_lt_max (a b : ℝ) : (if a < b then b else a) = max b a := by
  split_ifs with h
  · exact (max_eq_left h.le).symm
  · push_neg at h
    exact (max_eq_right h).symm

namespace Part004

/-- Whenever a part_004 tick reports a grounded result, the position has been
clamped to the 1.6 eye height and the vertical velocity zeroed; this justifies
the grounded-state hypotheses `position.y = 1.6` and `velocity.y = 0` used by
the jump-gating claim. -/
theorem updateMovement_grounded_inv (s : MovementState) (i : Input) (q : Quat) (δ : ℝ)
    (h : (updateMovement s i q δ).isGrounded = true) :
    (updateMovement s i q δ).position.y = 1.6 ∧ (updateMovement s i q δ).velocity.y = 0 := by
  unfold updateMovement at *
  by_cases hy : (preGround s i q δ).position.y ≤ 1.6
  · rw [groundAndRegen_land _ _ hy]
    exact ⟨rfl, rfl⟩
  · rw [groundAndRegen_air _ _ hy] at h
    simp at h

/-- Dropping the jump bit does not change a part_004 tick whose jump gate is
closed. -/
theorem preGround_jump_irrelevant (s : MovementState) (i : Input) (q : Quat) (δ : ℝ)
    (h : ¬ (i.jump = true ∧ s.isGrounded = true ∧ s.stamina > STAMINA_COST)) :
    preGround s i q δ = preGround s { i with jump := false } q δ := by
  unfold preGround
  have hbase : applyFriction (crouchStep (gravityStep s δ) { i with jump := false }) δ =
      applyFriction (crouchStep (gravityStep s δ) i) δ := rfl
  have hj1 : jumpStep (applyFriction (crouchStep (gravityStep s δ) i) δ) i =
      applyFriction (crouchStep (gravityStep s δ) i) δ := by
    unfold jumpStep
    rw [if_neg]
    rw [applyFriction_stamina, applyFriction_isGrounded_p4, crouchStep_stamina,
      crouchStep_isGrounded, gravityStep_stamina, gravityStep_isGrounded_p4]
    exact h
  have hj2 : jumpStep (applyFriction (crouchStep (gravityStep s δ) { i with jump := false }) δ)
      { i with jump := false } =
      applyFriction (crouchStep (gravityStep s δ) { i with jump := false }) δ := by
    unfold jumpStep
    rw [if_neg]
    rintro ⟨hfalse, -⟩
    exact Bool.false_ne_true hfalse
  rw [hj1, hj2, hbase]
  rfl

end Part004

/-- Claim C1 counterexample: in the part_004 variant, a grounded state whose
speed 0.05 is below the 0.1 epsilon passes through `applyFriction` with its
velocity left unchanged and nonzero, where the claim demands that the velocity
be set to exactly zero. -/
theorem claim1_applyFriction_cex :
    (Part004.applyFriction
        ⟨⟨0.05, 0, 0⟩, ⟨0, 1.6, 0⟩, true, false, 100, 250⟩ 0.1).velocity =
      Vec3.mk 0.05 0 0 ∧
    Vec3.mk 0.05 0 0 ≠ Vec3.zero ∧
    (Vec3.mk 0.05 0 0).length < 0.1 := by
  have hlen : (Vec3.mk 0.05 0 0).length < 0.1 := by
    unfold Vec3.length
    rw [Real.sqrt_lt' (by norm_num : (0:ℝ) < 0.1)]
    norm_num
  refine ⟨?_, ?_, hlen⟩
  · unfold Part004.applyFriction
    dsimp only
    rw [if_pos rfl, if_pos hlen]
  · intro h
    have hx := congrArg Vec3.x h
    norm_num [Vec3.zero] at hx

/-- Claim C1 (amended): in the frontend variant, grounded friction behaves
exactly as the claim states (zero-snap below the 0.1 epsilon, a
`control = max(STOP_SPEED, speed)` floor, the velocity rescaled to speed
`max(speed - drop, 0)`); in the part_004 variant, a grounded speed below the
epsilon leaves the velocity UNCHANGED rather than zeroing it, and the drop
uses the raw speed with no `STOP_SPEED` floor.  In both variants the new
velocity is a nonnegative multiple (at most 1) of the old one -- friction
never reverses the direction of motion -- and airborne states are unchanged. -/
theorem claim1_applyFriction_amended :
    (∀ (s : Frontend.MovementState) (δ : ℝ),
      (s.isGrounded = false → Frontend.applyFriction s δ = s) ∧
      (s.isGrounded = true → s.velocity.length < 0.1 →
        (Frontend.applyFriction s δ).velocity = Vec3.zero) ∧
      (s.isGrounded = true → ¬ s.velocity.length < 0.1 →
        (Frontend.applyFriction s δ).velocity =
          s.velocity.multiplyScalar
            (max (s.velocity.length -
                max Frontend.STOP_SPEED s.velocity.length * Frontend.GROUND_FRICTION * δ) 0 /
              s.velocity.length)) ∧
      (0 ≤ δ → ∃ c, 0 ≤ c ∧ c ≤ 1 ∧
        (Frontend.applyFriction s δ).velocity = s.velocity.multiplyScalar c)) ∧
    (∀ (s : Part004.MovementState) (δ : ℝ),
      (s.isGrounded = false → Part004.applyFriction s δ = s) ∧
      (s.isGrounded = true → s.velocity.length < 0.1 →
        (Part004.applyFriction s δ).velocity = s.velocity) ∧
      (s.isGrounded = true → ¬ s.velocity.length < 0.1 →
        (Part004.applyFriction s δ).velocity =
          s.velocity.multiplyScalar
            (max (s.velocity.length -
                s.velocity.length * Part004.GROUND_FRICTION * δ) 0 /
              s.velocity.length)) ∧
      (0 ≤ δ → ∃ c, 0 ≤ c ∧ c ≤ 1 ∧
        (Part004.applyFriction s δ).velocity = s.velocity.multiplyScalar c)) := by
  constructor
  · intro s δ
    refine ⟨Frontend.applyFriction_airborne s δ, ?_, ?_, Frontend.applyFriction_scale s δ⟩
    · intro hg hlt
      unfold Frontend.applyFriction
      dsimp only
      rw [if_pos hg, if_pos hlt]
    · intro hg hge
      unfold Frontend.applyFriction
      dsimp only
      rw [if_pos hg, if_neg hge, ite_lt_max]
      have hpos : 0 < s.velocity.length := lt_of_lt_of_le (by norm_num) (le_of_not_lt hge)
      split_ifs with hneg
      · rw [max_eq_right hneg.le, zero_div, Vec3.multiplyScalar_zero]
      · rw [max_eq_left (le_of_not_lt hneg)]
  · intro s δ
    refine ⟨Part004.applyFriction_airborne_p4 s δ, ?_, ?_, Part004.applyFriction_scale_p4 s δ⟩
    · intro hg hlt
      unfold Part004.applyFriction
      dsimp only
      rw [if_pos hg, if_pos hlt]
    · intro hg hge
      unfold Part004.applyFriction
      dsimp only
      rw [if_pos hg, if_neg hge]
      have hpos : 0 < s.velocity.length := lt_of_lt_of_le (by norm_num) (le_of_not_lt hge)
      split_ifs with hngt
      · rfl
      · push_neg at hngt
        have h0 : max (s.velocity.length - s.velocity.length * Part004.GROUND_FRICTION * δ) 0
            = 0 := le_antisymm hngt (le_max_right _ _)
        rw [h0, zero_div]

/-- Claim C1 witness: both amended friction conjuncts evaluated at a concrete
grounded state with velocity `(3, 0, 4)` and `delta = 1`. -/
theorem claim1_applyFriction_amended_witness :
    (0:ℝ) ≤ 1 ∧
    (∃ c, 0 ≤ c ∧ c ≤ 1 ∧
      (Frontend.applyFriction ⟨⟨3, 0, 4⟩, ⟨0, 1.7, 0⟩, true, False, 1.7, 1.7⟩ 1).velocity =
        (Vec3.mk 3 0 4).multiplyScalar c) ∧
    (∃ c, 0 ≤ c ∧ c ≤ 1 ∧
      (Part004.applyFriction ⟨⟨3, 0, 4⟩, ⟨0, 1.6, 0⟩, true, false, 100, 250⟩ 1).velocity =
        (Vec3.mk 3 0 4).multiplyScalar c) :=
  ⟨by norm_num,
   (claim1_applyFriction_amended.1 ⟨⟨3, 0, 4⟩, ⟨0, 1.7, 0⟩, true, False, 1.7, 1.7⟩ 1).2.2.2
     (by norm_num),
   (claim1_applyFriction_amended.2 ⟨⟨3, 0, 4⟩, ⟨0, 1.6, 0⟩, true, false, 100, 250⟩ 1).2.2.2
     (by norm_num)⟩

/-- Claim C2: in the stamina-gated (part_004) variant, a jump request on a
grounded tick with `stamina > STAMINA_COST` ends the tick with
`velocity.y = JUMP_VELOCITY` exactly, `isGrounded = false`, and stamina
decremented by exactly `STAMINA_COST`; with `stamina ≤ STAMINA_COST` the
request is a no-op -- the tick is identical to the same tick with the jump
bit cleared -- and `isGrounded` remains true.  The hypotheses
`position.y = 1.6` and `velocity.y = 0` are the grounded-state invariants
established by `Part004.updateMovement_grounded_inv`. -/
theorem claim2_jump_gating (s : Part004.MovementState) (i : Input) (q : Quat) (δ : ℝ)
    (hδ : 0 < δ) (hg : s.isGrounded = true) (hy : s.position.y = 1.6)
    (hvy : s.velocity.y = 0) (hj : i.jump = true) :
    (Part004.STAMINA_COST < s.stamina →
      (Part004.updateMovement s i q δ).velocity.y = Part004.JUMP_VELOCITY ∧
      (Part004.updateMovement s i q δ).isGrounded = false ∧
      (Part004.updateMovement s i q δ).stamina = s.stamina - Part004.STAMINA_COST) ∧
    (s.stamina ≤ Part004.STAMINA_COST →
      Part004.updateMovement s i q δ = Part004.updateMovement s { i with jump := false } q δ ∧
      (Part004.updateMovement s i q δ).isGrounded = true) := by
  have hposy : (Part004.preGround s i q δ).position.y =
      s.position.y + (Part004.preGround s i q δ).velocity.y * δ := by
    rw [Part004.preGround_position_p4]
    rfl
  constructor
  · intro hst
    have hvy' := Part004.preGround_velocity_y_grounded s i q δ hg hvy
    rw [if_pos ⟨hj, hst⟩] at hvy'
    have hgt : ¬ (Part004.preGround s i q δ).position.y ≤ 1.6 := by
      rw [hposy, hvy', hy]
      push_neg
      have : (0:ℝ) < Part004.JUMP_VELOCITY * δ := by
        have : (0:ℝ) < Part004.JUMP_VELOCITY := by norm_num [Part004.JUMP_VELOCITY]
        positivity
      linarith
    rw [show Part004.updateMovement s i q δ =
        Part004.groundAndRegen (Part004.preGround s i q δ) δ from rfl,
      Part004.groundAndRegen_air _ _ hgt]
    refine ⟨hvy', rfl, ?_⟩
    show (Part004.preGround s i q δ).stamina = _
    rw [Part004.preGround_stamina, if_pos ⟨hj, hg, hst⟩]
  · intro hst
    have hncond : ¬ (i.jump = true ∧ s.isGrounded = true ∧ s.stamina > Part004.STAMINA_COST) := by
      rintro ⟨-, -, hh⟩
      linarith
    have hvy' := Part004.preGround_velocity_y_grounded s i q δ hg hvy
    rw [if_neg (by rintro ⟨-, hh⟩; linarith)] at hvy'
    have hle : (Part004.preGround s i q δ).position.y ≤ 1.6 := by
      rw [hposy, hvy', hy]
      norm_num
    constructor
    · rw [show Part004.updateMovement s i q δ =
          Part004.groundAndRegen (Part004.preGround s i q δ) δ from rfl,
        show Part004.updateMovement s { i with jump := false } q δ =
          Part004.groundAndRegen (Part004.preGround s { i with jump := false } q δ) δ from rfl,
        Part004.preGround_jump_irrelevant s i q δ hncond]
    · rw [show Part004.updateMovement s i q δ =
          Part004.groundAndRegen (Part004.preGround s i q δ) δ from rfl,
        Part004.groundAndRegen_land _ _ hle]

/-- Claim C2 witness: the gated jump evaluated on a concrete full-stamina
grounded state (positive branch) and on a concrete low-stamina grounded state
(no-op branch). -/
theorem claim2_jump_gating_witness :
    ((Part004.updateMovement ⟨Vec3.zero, ⟨0, 1.6, 0⟩, true, false, 100, 250⟩
        ⟨0, 0, true, false⟩ ⟨0, 0, 0, 1⟩ 0.01).stamina = 100 - Part004.STAMINA_COST) ∧
    (Part004.updateMovement ⟨Vec3.zero, ⟨0, 1.6, 0⟩, true, false, 50, 250⟩
        ⟨0, 0, true, false⟩ ⟨0, 0, 0, 1⟩ 0.01).isGrounded = true :=
  ⟨((claim2_jump_gating ⟨Vec3.zero, ⟨0, 1.6, 0⟩, true, false, 100, 250⟩
      ⟨0, 0, true, false⟩ ⟨0, 0, 0, 1⟩ 0.01 (by norm_num) rfl rfl rfl rfl).1
      (by norm_num [Part004.STAMINA_COST])).2.2,
   ((claim2_jump_gating ⟨Vec3.zero, ⟨0, 1.6, 0⟩, true, false, 50, 250⟩
      ⟨0, 0, true, false⟩ ⟨0, 0, 0, 1⟩ 0.01 (by norm_num) rfl rfl rfl rfl).2
      (by norm_num [Part004.STAMINA_COST])).2⟩

/-- Claim C7: the invariant `0 ≤ stamina ≤ STAMINA_MAX` is preserved by every
part_004 tick for every input, camera and positive delta. -/
theorem claim7_stamina_invariant (s : Part004.MovementState) (i : Input) (q : Quat)
    (δ : ℝ) (hδ : 0 < δ) (h0 : 0 ≤ s.stamina) (h1 : s.stamina ≤ Part004.STAMINA_MAX) :
    0 ≤ (Part004.updateMovement s i q δ).stamina ∧
      (Part004.updateMovement s i q δ).stamina ≤ Part004.STAMINA_MAX := by
  have hpre : 0 ≤ (Part004.preGround s i q δ).stamina ∧
      (Part004.preGround s i q δ).stamina ≤ Part004.STAMINA_MAX := by
    rw [Part004.preGround_stamina]
    split_ifs with h
    · obtain ⟨-, -, hh⟩ := h
      norm_num [Part004.STAMINA_COST] at hh
      norm_num [Part004.STAMINA_COST, Part004.STAMINA_MAX] at h1 ⊢
      constructor <;> linarith
    · exact ⟨h0, h1⟩
  have hrec : 0 ≤ Part004.STAMINA_RECOVERY * δ := by
    have : (0:ℝ) ≤ Part004.STAMINA_RECOVERY := by norm_num [Part004.STAMINA_RECOVERY]
    positivity
  rw [show Part004.updateMovement s i q δ =
      Part004.groundAndRegen (Part004.preGround s i q δ) δ from rfl]
  by_cases hy : (Part004.preGround s i q δ).position.y ≤ 1.6
  · rw [Part004.groundAndRegen_land _ _ hy]
    show 0 ≤ min Part004.STAMINA_MAX _ ∧ min Part004.STAMINA_MAX _ ≤ Part004.STAMINA_MAX
    refine ⟨le_min (by norm_num [Part004.STAMINA_MAX]) ?_, min_le_left _ _⟩
    split_ifs with hgr
    · linarith [hpre.1]
    · have : (0:ℝ) ≤ max 0 ((Part004.preGround s i q δ).stamina - Part004.STAMINA_LAND_COST) :=
        le_max_left _ _
      linarith
  · rw [Part004.groundAndRegen_air _ _ hy]
    exact hpre

/-- Claim C7 witness: the invariant applied to a concrete mid-stamina airborne
state. -/
theorem claim7_stamina_invariant_witness :
    0 ≤ (Part004.updateMovement ⟨⟨0, -10, 0⟩, ⟨0, 1.7, 0⟩, false, false, 10, 250⟩
        ⟨0, 0, false, false⟩ ⟨0, 0, 0, 1⟩ 0.01).stamina ∧
      (Part004.updateMovement ⟨⟨0, -10, 0⟩, ⟨0, 1.7, 0⟩, false, false, 10, 250⟩
        ⟨0, 0, false, false⟩ ⟨0, 0, 0, 1⟩ 0.01).stamina ≤ Part004.STAMINA_MAX :=
  claim7_stamina_invariant ⟨⟨0, -10, 0⟩, ⟨0, 1.7, 0⟩, false, false, 10, 250⟩
    ⟨0, 0, false, false⟩ ⟨0, 0, 0, 1⟩ 0.01 (by norm_num) (by norm_num)
    (by norm_num [Part004.STAMINA_MAX])

/-- The concrete airborne landing tick used against claim C6: starting at
`y = 1.7` with `velocity.y = -10` and `delta = 0.01`, the integrated position
crosses the 1.6 eye height. -/
theorem landingCexCross :
    (Part004.preGround ⟨⟨0, -10, 0⟩, ⟨0, 1.7, 0⟩, false, false, 50, 250⟩
        ⟨0, 0, false, false⟩ ⟨0, 0, 0, 1⟩ 0.01).position.y ≤ 1.6 := by
  have hvy := Part004.preGround_velocity_y_air
    ⟨⟨0, -10, 0⟩, ⟨0, 1.7, 0⟩, false, false, 50, 250⟩
    ⟨0, 0, false, false⟩ ⟨0, 0, 0, 1⟩ 0.01 rfl
  have hpos := Part004.preGround_position_p4
    ⟨⟨0, -10, 0⟩, ⟨0, 1.7, 0⟩, false, false, 50, 250⟩
    ⟨0, 0, false, false⟩ ⟨0, 0, 0, 1⟩ 0.01
  have hy : (Part004.preGround ⟨⟨0, -10, 0⟩, ⟨0, 1.7, 0⟩, false, false, 50, 250⟩
      ⟨0, 0, false, false⟩ ⟨0, 0, 0, 1⟩ 0.01).position.y =
      1.7 + (Part004.preGround ⟨⟨0, -10, 0⟩, ⟨0, 1.7, 0⟩, false, false, 50, 250⟩
        ⟨0, 0, false, false⟩ ⟨0, 0, 0, 1⟩ 0.01).velocity.y * 0.01 := by
    rw [hpos]
    rfl
  rw [hy, hvy]
  norm_num [Part004.GRAVITY]

/-- Claim C6 counterexample: on a concrete airborne tick that lands
(`y: 1.7 to 1.52`, clamped at 1.6; pre-tick stamina 50, `delta = 0.01`), the
post-tick stamina is `25.005 = max(0, 50 - 25) + 0.5 * 0.01`, not the
`50 - STAMINA_LAND_COST = 25` demanded by "reduced by exactly
STAMINA_LAND_COST": the same grounded tick also regenerates stamina. -/
theorem claim6_landing_cex :
    (Part004.updateMovement ⟨⟨0, -10, 0⟩, ⟨0, 1.7, 0⟩, false, false, 50, 250⟩
        ⟨0, 0, false, false⟩ ⟨0, 0, 0, 1⟩ 0.01).stamina = 25.005 ∧
    (25.005 : ℝ) ≠ 50 - Part004.STAMINA_LAND_COST := by
  constructor
  · rw [show Part004.updateMovement ⟨⟨0, -10, 0⟩, ⟨0, 1.7, 0⟩, false, false, 50, 250⟩
          ⟨0, 0, false, false⟩ ⟨0, 0, 0, 1⟩ 0.01 =
        Part004.groundAndRegen (Part004.preGround
          ⟨⟨0, -10, 0⟩, ⟨0, 1.7, 0⟩, false, false, 50, 250⟩
          ⟨0, 0, false, false⟩ ⟨0, 0, 0, 1⟩ 0.01) 0.01 from rfl,
      Part004.groundAndRegen_land _ _ landingCexCross]
    have hgr : (Part004.preGround ⟨⟨0, -10, 0⟩, ⟨0, 1.7, 0⟩, false, false, 50, 250⟩
        ⟨0, 0, false, false⟩ ⟨0, 0, 0, 1⟩ 0.01).isGrounded = false := by
      rw [Part004.preGround_isGrounded, if_neg]
      rintro ⟨hh, -⟩
      exact Bool.false_ne_true hh
    have hst : (Part004.preGround ⟨⟨0, -10, 0⟩, ⟨0, 1.7, 0⟩, false, false, 50, 250⟩
        ⟨0, 0, false, false⟩ ⟨0, 0, 0, 1⟩ 0.01).stamina = 50 :=
      Part004.preGround_stamina_air _ _ _ _ rfl
    show min Part004.STAMINA_MAX _ = _
    rw [hgr, hst]
    norm_num [Part004.STAMINA_MAX, Part004.STAMINA_LAND_COST, Part004.STAMINA_RECOVERY,
      max_def, min_def]
  · norm_num [Part004.STAMINA_LAND_COST]

/-- Claim C6 (amended): on a part_004 landing tick (airborne, falling, the
integrated position at or below the 1.6 eye height), the post-tick state has
`position.y = 1.6`, `velocity.y = 0`, `isGrounded = true`, and stamina equal
to `min(STAMINA_MAX, max(0, stamina - STAMINA_LAND_COST) + STAMINA_RECOVERY
* delta)` -- the landing deduction is clamped at zero and the same tick then
regenerates.  Moreover (second conjunct) from any part_004 state with
`position.y ≥ 1.6` -- an invariant of all reachable states -- the clamp can
only fire with a downward vertical velocity, and (third conjunct) the
frontend ground test never zeroes an upward vertical velocity. -/
theorem claim6_landing_amended :
    (∀ (s : Part004.MovementState) (i : Input) (q : Quat) (δ : ℝ),
      0 < δ → s.isGrounded = false → s.velocity.y < 0 →
      (Part004.preGround s i q δ).position.y ≤ 1.6 →
      (Part004.updateMovement s i q δ).position.y = 1.6 ∧
      (Part004.updateMovement s i q δ).velocity.y = 0 ∧
      (Part004.updateMovement s i q δ).isGrounded = true ∧
      (Part004.updateMovement s i q δ).stamina =
        min Part004.STAMINA_MAX
          (max 0 (s.stamina - Part004.STAMINA_LAND_COST) + Part004.STAMINA_RECOVERY * δ)) ∧
    (∀ (s : Part004.MovementState) (i : Input) (q : Quat) (δ : ℝ),
      0 < δ → 1.6 ≤ s.position.y →
      (Part004.preGround s i q δ).position.y ≤ 1.6 →
      (Part004.preGround s i q δ).velocity.y ≤ 0) ∧
    (∀ (s : Frontend.MovementState) (i : Input) (q : Quat) (δ : ℝ),
      0 < (Frontend.preGround s i q δ).velocity.y →
      (Frontend.updateMovement s i q δ).velocity.y =
        (Frontend.preGround s i q δ).velocity.y) := by
  refine ⟨?_, ?_, ?_⟩
  · intro s i q δ hδ hg hvy hcross
    rw [show Part004.updateMovement s i q δ =
        Part004.groundAndRegen (Part004.preGround s i q δ) δ from rfl,
      Part004.groundAndRegen_land _ _ hcross]
    refine ⟨rfl, rfl, rfl, ?_⟩
    have hgr : (Part004.preGround s i q δ).isGrounded = false := by
      rw [Part004.preGround_isGrounded]
      rw [if_neg]
      · exact hg
      · rintro ⟨-, hh, -⟩
        rw [hg] at hh
        exact Bool.false_ne_true hh
    have hst : (Part004.preGround s i q δ).stamina = s.stamina :=
      Part004.preGround_stamina_air s i q δ hg
    show min Part004.STAMINA_MAX _ = _
    rw [hgr, hst]
    norm_num
  · intro s i q δ hδ hy16 hcross
    have hpos : (Part004.preGround s i q δ).position.y =
        s.position.y + (Part004.preGround s i q δ).velocity.y * δ := by
      rw [Part004.preGround_position_p4]
      rfl
    rw [hpos] at hcross
    nlinarith
  · intro s i q δ hpos
    exact Frontend.groundCheck_velocity_y_pos _ hpos

/-- Claim C6 witness: the amended landing conjunct applied to the concrete
airborne tick of the counterexample. -/
theorem claim6_landing_amended_witness :
    (Part004.updateMovement ⟨⟨0, -10, 0⟩, ⟨0, 1.7, 0⟩, false, false, 50, 250⟩
        ⟨0, 0, false, false⟩ ⟨0, 0, 0, 1⟩ 0.01).position.y = 1.6 ∧
    (Part004.updateMovement ⟨⟨0, -10, 0⟩, ⟨0, 1.7, 0⟩, false, false, 50, 250⟩
        ⟨0, 0, false, false⟩ ⟨0, 0, 0, 1⟩ 0.01).velocity.y = 0 ∧
    (Part004.updateMovement ⟨⟨0, -10, 0⟩, ⟨0, 1.7, 0⟩, false, false, 50, 250⟩
        ⟨0, 0, false, false⟩ ⟨0, 0, 0, 1⟩ 0.01).isGrounded = true ∧
    (Part004.updateMovement ⟨⟨0, -10, 0⟩, ⟨0, 1.7, 0⟩, false, false, 50, 250⟩
        ⟨0, 0, false, false⟩ ⟨0, 0, 0, 1⟩ 0.01).stamina =
      min Part004.STAMINA_MAX
        (max 0 ((50:ℝ) - Part004.STAMINA_LAND_COST) + Part004.STAMINA_RECOVERY * 0.01) :=
  claim6_landing_amended.1 ⟨⟨0, -10, 0⟩, ⟨0, 1.7, 0⟩, false, false, 50, 250⟩
    ⟨0, 0, false, false⟩ ⟨0, 0, 0, 1⟩ 0.01 (by norm_num) rfl (by norm_num) landingCexCross

/-- Claim C8 counterexample: `updateRecoilRecovery` depends on the ambient
clock.  From the same weapon state (`recoilIndex = 1`, last shot at 0) and the
same `delta = 0.1`, a call with `performance.now() = 100` ms keeps
`recoilIndex = 1` while a call at `500` ms steps it back to 0: same state,
same inputs, different results. -/
theorem claim8_determinism_cex :
    (Frontend.updateRecoilRecovery ⟨1, Vec2.zero, 0⟩ 0.1 100).2.recoilIndex = 1 ∧
    (Frontend.updateRecoilRecovery ⟨1, Vec2.zero, 0⟩ 0.1 500).2.recoilIndex = 0 ∧
    (Frontend.updateRecoilRecovery ⟨1, Vec2.zero, 0⟩ 0.1 100).2 ≠
      (Frontend.updateRecoilRecovery ⟨1, Vec2.zero, 0⟩ 0.1 500).2 := by
  have h1 : (Frontend.updateRecoilRecovery ⟨1, Vec2.zero, 0⟩ 0.1 100).2.recoilIndex = 1 := by
    unfold Frontend.updateRecoilRecovery
    dsimp only
    rw [if_neg (by norm_num)]
  have h2 : (Frontend.updateRecoilRecovery ⟨1, Vec2.zero, 0⟩ 0.1 500).2.recoilIndex = 0 := by
    unfold Frontend.updateRecoilRecovery
    dsimp only
    rw [if_pos (by norm_num)]
  refine ⟨h1, h2, fun h => ?_⟩
  have := congrArg Frontend.WeaponState.recoilIndex h
  rw [h1, h2] at this
  exact absurd this (by norm_num)

/-- Claim C8 (amended): all core operations are deterministic functions of
their explicit arguments and the stored state, except that the recoil engine
reads the ambient clock: `applyRecoil` records the reading in `lastShotTime`,
and the `recoilIndex` step-back in `updateRecoilRecovery` depends on it.  The
returned per-shot offset, the recoil accumulation, and the `totalRecoil`
recovery itself are clock-independent, in both variants. -/
theorem claim8_determinism_amended :
    (∀ (w : Frontend.WeaponState) (δ n₁ n₂ : ℝ),
      (Frontend.updateRecoilRecovery w δ n₁).1 = (Frontend.updateRecoilRecovery w δ n₂).1 ∧
      (Frontend.updateRecoilRecovery w δ n₁).2.totalRecoil =
        (Frontend.updateRecoilRecovery w δ n₂).2.totalRecoil) ∧
    (∀ (w : Frontend.WeaponState) (m n₁ n₂ : ℝ),
      (Frontend.applyRecoil w m n₁).1 = (Frontend.applyRecoil w m n₂).1 ∧
      (Frontend.applyRecoil w m n₁).2.recoilIndex = (Frontend.applyRecoil w m n₂).2.recoilIndex ∧
      (Frontend.applyRecoil w m n₁).2.totalRecoil = (Frontend.applyRecoil w m n₂).2.totalRecoil) ∧
    (∀ (w : Part004.WeaponState) (δ n₁ n₂ : ℝ),
      (Part004.updateRecoilRecovery w δ n₁).1 = (Part004.updateRecoilRecovery w δ n₂).1 ∧
      (Part004.updateRecoilRecovery w δ n₁).2.totalRecoil =
        (Part004.updateRecoilRecovery w δ n₂).2.totalRecoil) ∧
    (∀ (w : Part004.WeaponState) (n₁ n₂ : ℝ),
      (Part004.applyRecoil w n₁).1 = (Part004.applyRecoil w n₂).1 ∧
      (Part004.applyRecoil w n₁).2.recoilIndex = (Part004.applyRecoil w n₂).2.recoilIndex ∧
      (Part004.applyRecoil w n₁).2.totalRecoil = (Part004.applyRecoil w n₂).2.totalRecoil) := by
  refine ⟨?_, ?_, ?_, ?_⟩
  · intro w δ n₁ n₂
    constructor <;>
      (unfold Frontend.updateRecoilRecovery
       dsimp only
       split_ifs <;> rfl)
  · exact fun w m n₁ n₂ => ⟨rfl, rfl, rfl⟩
  · intro w δ n₁ n₂
    constructor <;>
      (unfold Part004.updateRecoilRecovery
       dsimp only
       split_ifs <;> rfl)
  · exact fun w n₁ n₂ => ⟨rfl, rfl, rfl⟩

namespace Frontend

theorem gravityStep_isCrouching (s : MovementState) (δ : ℝ) :
    (gravityStep s δ).isCrouching = s.isCrouching := by
  unfold gravityStep
  split_ifs <;> rfl

theorem moveStep_isCrouching (s : MovementState) (i : Input) (q : Quat) (δ : ℝ) :
    (moveStep s i q δ).isCrouching = s.isCrouching := by
  unfold moveStep
  dsimp only
  split_ifs <;> simp [accelerate_isCrouching, applyFriction_isCrouching]

theorem jumpStep_isCrouching (s : MovementState) (i : Input) :
    (jumpStep s i).isCrouching = s.isCrouching := by
  unfold jumpStep
  split_ifs <;> rfl

theorem integrateStep_isCrouching (s : MovementState) (δ : ℝ) :
    (integrateStep s δ).isCrouching = s.isCrouching := rfl

/-- After every frontend tick, the stored `isCrouching` is exactly the
height-proximity proposition for the freshly smoothed height. -/
theorem updateMovement_isCrouching (s : MovementState) (i : Input) (q : Quat) (δ : ℝ) :
    (updateMovement s i q δ).isCrouching =
      (|lerp s.currentHeight (if i.crouch then CROUCH_HEIGHT else HEAD_HEIGHT)
          (CROUCH_TRANSITION_SPEED * δ) - CROUCH_HEIGHT| < 0.1) := by
  unfold updateMovement preGround
  rw [groundCheck_isCrouching, integrateStep_isCrouching, jumpStep_isCrouching,
    moveStep_isCrouching, gravityStep_isCrouching]
  rfl

end Frontend

namespace Part004

theorem groundAndRegen_isCrouching (s : MovementState) (δ : ℝ) :
    (groundAndRegen s δ).isCrouching = s.isCrouching := by
  unfold groundAndRegen
  dsimp only
  split_ifs <;> rfl

/-- After every part_004 tick, the stored `isCrouching` is the raw input bit. -/
theorem updateMovement_isCrouching_p4 (s : MovementState) (i : Input) (q : Quat) (δ : ℝ) :
    (updateMovement s i q δ).isCrouching = i.crouch := by
  unfold updateMovement
  rw [groundAndRegen_isCrouching, preGround_isCrouching]

end Part004

/-- Claim C9 counterexample: on the first crouch tick from the initial state
(`crouch` input true, `delta = 0.016`), the part_004 variant reports
`isCrouching = true` -- a direct echo of the input bit -- while the height
derivation prescribed by the claim (and implemented by the frontend variant,
whose smoothed height `1.636` is still far from the `1.2` crouch height)
yields false. -/
theorem claim9_isCrouching_cex :
    (Part004.updateMovement Part004.initState ⟨0, 0, false, true⟩
        ⟨0, 0, 0, 1⟩ 0.016).isCrouching = true ∧
    ¬ (Frontend.updateMovement Frontend.initState ⟨0, 0, false, true⟩
        ⟨0, 0, 0, 1⟩ 0.016).isCrouching := by
  constructor
  · rw [Part004.updateMovement_isCrouching_p4]
  · rw [Frontend.updateMovement_isCrouching]
    show ¬ |Frontend.lerp Frontend.initState.currentHeight _ _ - _| < 0.1
    norm_num [Frontend.lerp, Frontend.initState, Frontend.CROUCH_HEIGHT,
      Frontend.HEAD_HEIGHT, Frontend.CROUCH_TRANSITION_SPEED, abs_lt]

/-- Claim C9 (amended): in the frontend variant `isCrouching` is derived --
after every tick it holds exactly when the smoothed height is within the 0.1
tolerance of the crouch height, and on a transition tick it can differ from
the crouch input (third conjunct); in the part_004 variant `isCrouching` is a
direct echo of the crouch input bit. -/
theorem claim9_isCrouching_amended :
    (∀ (s : Frontend.MovementState) (i : Input) (q : Quat) (δ : ℝ),
      (Frontend.updateMovement s i q δ).isCrouching ↔
        |Frontend.lerp s.currentHeight
            (if i.crouch then Frontend.CROUCH_HEIGHT else Frontend.HEAD_HEIGHT)
            (Frontend.CROUCH_TRANSITION_SPEED * δ) - Frontend.CROUCH_HEIGHT| < 0.1) ∧
    (∀ (s : Part004.MovementState) (i : Input) (q : Quat) (δ : ℝ),
      (Part004.updateMovement s i q δ).isCrouching = i.crouch) ∧
    ¬ (Frontend.updateMovement Frontend.initState ⟨0, 0, true, true⟩
        ⟨0, 0, 0, 1⟩ 0.016).isCrouching := by
  refine ⟨?_, ?_, ?_⟩
  · intro s i q δ
    rw [Frontend.updateMovement_isCrouching]
  · intro s i q δ
    exact Part004.updateMovement_isCrouching_p4 s i q δ
  · rw [Frontend.updateMovement_isCrouching]
    show ¬ |Frontend.lerp Frontend.initState.currentHeight _ _ - _| < 0.1
    norm_num [Frontend.lerp, Frontend.initState, Frontend.CROUCH_HEIGHT,
      Frontend.HEAD_HEIGHT, Frontend.CROUCH_TRANSITION_SPEED, abs_lt]

/-- The recovery subtraction `t - normalize(t) * min(r, |t|)` is a rescaling
of `t` by `1 - min(r, |t|)/|t|` (for `|t| > 0`). -/
theorem recoverStep_eq (t : Vec2) (r : ℝ) (h : 0 < t.length) :
    t.sub ((t.normalize).multiplyScalar (min r t.length)) =
      t.multiplyScalar (1 - min r t.length / t.length) := by
  have hne : t.length ≠ 0 := ne_of_gt h
  ext <;>
    (simp only [Vec2.sub, Vec2.normalize, Vec2.divideScalar, Vec2.multiplyScalar, if_neg hne]
     ring)

/-- Magnitude of `totalRecoil` after one recovery step: exactly
`max(|t| - r, 0)` for a positive recovery budget `r`. -/
theorem recover_length (t : Vec2) (r : ℝ) (hr : 0 < r) :
    (if t.length > 0 then t.sub ((t.normalize).multiplyScalar (min r t.length))
     else t).length = max (t.length - r) 0 := by
  split_ifs with h
  · rw [recoverStep_eq t r h, Vec2.length_multiplyScalar]
    have hm : min r t.length ≤ t.length := min_le_right _ _
    have h1 : 0 ≤ 1 - min r t.length / t.length := by
      rw [sub_nonneg, div_le_one h]
      exact hm
    rw [abs_of_nonneg h1]
    rcases le_total r t.length with hc | hc
    · rw [min_eq_left hc, max_eq_left (by linarith)]
      field_simp
    · rw [min_eq_right hc, max_eq_right (by linarith)]
      field_simp
  · push_neg at h
    have h0 : t.length = 0 := le_antisymm h t.len_nonneg
    rw [h0, max_eq_right (by linarith)]

/-- One recovery step rescales `totalRecoil` by a factor in `[0, 1]`: it moves
it toward zero along its own direction and never flips its sign. -/
theorem recover_scale (t : Vec2) (r : ℝ) (hr : 0 < r) :
    ∃ c, 0 ≤ c ∧ c ≤ 1 ∧
      (if t.length > 0 then t.sub ((t.normalize).multiplyScalar (min r t.length))
       else t) = t.multiplyScalar c := by
  split_ifs with h
  · refine ⟨1 - min r t.length / t.length, ?_, ?_, recoverStep_eq t r h⟩
    · rw [sub_nonneg, div_le_one h]
      exact min_le_right _ _
    · have hd : 0 ≤ min r t.length / t.length :=
        div_nonneg (le_min hr.le h.le) h.le
      linarith
  · exact ⟨1, by norm_num, by norm_num, by ext <;> simp [Vec2.multiplyScalar]⟩

namespace Frontend

/-- The `totalRecoil` produced by `updateRecoilRecovery` in terms of the old
one (the clock-dependent `recoilIndex` step-back does not touch it). -/
theorem updateRecoilRecovery_totalRecoil (w : WeaponState) (δ now : ℝ) :
    (updateRecoilRecovery w δ now).2.totalRecoil =
      (if w.totalRecoil.length > 0 then
        w.totalRecoil.sub ((w.totalRecoil.normalize).multiplyScalar
          (min (3 * δ) w.totalRecoil.length))
      else w.totalRecoil) := by
  unfold updateRecoilRecovery
  dsimp only
  by_cases ht : (now - w.lastShotTime) / 1000 > 0.4
  · rw [if_pos ht]
  · rw [if_neg ht]

/-- Per-call non-increase of the recoil magnitude (frontend). -/
theorem recovery_length_le (w : WeaponState) (δ now : ℝ) (hδ : 0 < δ) :
    (updateRecoilRecovery w δ now).2.totalRecoil.length ≤ w.totalRecoil.length := by
  rw [updateRecoilRecovery_totalRecoil, recover_length _ _ (by linarith)]
  exact max_le (by linarith) w.totalRecoil.len_nonneg

end Frontend

namespace Part004

/-- The `totalRecoil` produced by the part_004 `updateRecoilRecovery` in terms
of the old one. -/
theorem updateRecoilRecovery_totalRecoil_p4 (w : WeaponState) (δ now : ℝ) :
    (updateRecoilRecovery w δ now).2.totalRecoil =
      (if w.totalRecoil.length > 0 then
        w.totalRecoil.sub ((w.totalRecoil.normalize).multiplyScalar
          (min (RECOIL_RECOVERY * δ) w.totalRecoil.length))
      else w.totalRecoil) := by
  unfold updateRecoilRecovery
  dsimp only
  by_cases ht : (now - w.lastShotTime) / 1000 > 0.4
  · rw [if_pos ht]
  · rw [if_neg ht]

end Part004

/-- Claim C5: `updateRecoilRecovery` never increases `|totalRecoil|`; while
positive, each call with `delta > 0` decreases it by exactly
`min(rate * delta, |totalRecoil|)` (strictly), along its own direction
(`totalRecoil` is rescaled by a factor in `[0, 1]`); at zero it stays exactly
zero; and any sequence of such calls is non-increasing.  Rate 3 in the
frontend variant, `RECOIL_RECOVERY = 8` in part_004. -/
theorem claim5_recoil_recovery :
    (∀ (w : Frontend.WeaponState) (δ now : ℝ), 0 < δ →
      (Frontend.updateRecoilRecovery w δ now).2.totalRecoil.length =
        max (w.totalRecoil.length - 3 * δ) 0 ∧
      (Frontend.updateRecoilRecovery w δ now).2.totalRecoil.length ≤
        w.totalRecoil.length ∧
      (0 < w.totalRecoil.length →
        (Frontend.updateRecoilRecovery w δ now).2.totalRecoil.length =
          w.totalRecoil.length - min (3 * δ) w.totalRecoil.length ∧
        (Frontend.updateRecoilRecovery w δ now).2.totalRecoil.length <
          w.totalRecoil.length) ∧
      (w.totalRecoil.length = 0 →
        (Frontend.updateRecoilRecovery w δ now).2.totalRecoil = w.totalRecoil) ∧
      (∃ c, 0 ≤ c ∧ c ≤ 1 ∧
        (Frontend.updateRecoilRecovery w δ now).2.totalRecoil =
          w.totalRecoil.multiplyScalar c)) ∧
    (∀ (w : Part004.WeaponState) (δ now : ℝ), 0 < δ →
      (Part004.updateRecoilRecovery w δ now).2.totalRecoil.length =
        max (w.totalRecoil.length - Part004.RECOIL_RECOVERY * δ) 0 ∧
      (∃ c, 0 ≤ c ∧ c ≤ 1 ∧
        (Part004.updateRecoilRecovery w δ now).2.totalRecoil =
          w.totalRecoil.multiplyScalar c)) ∧
    (∀ (w : Frontend.WeaponState) (now : ℝ) (ds : List ℝ), (∀ d ∈ ds, 0 < d) →
      Vec2.length
          (ds.foldl (fun st d => (Frontend.updateRecoilRecovery st d now).2) w).totalRecoil ≤
        w.totalRecoil.length) := by
  refine ⟨?_, ?_, ?_⟩
  · intro w δ now hδ
    have hr : (0:ℝ) < 3 * δ := by linarith
    refine ⟨?_, Frontend.recovery_length_le w δ now hδ, ?_, ?_, ?_⟩
    · rw [Frontend.updateRecoilRecovery_totalRecoil, recover_length _ _ hr]
    · intro hpos
      have hmin : 0 < min (3 * δ) w.totalRecoil.length := lt_min hr hpos
      rw [Frontend.updateRecoilRecovery_totalRecoil, recover_length _ _ hr]
      constructor
      · rcases le_total (3 * δ) w.totalRecoil.length with hc | hc
        · rw [min_eq_left hc, max_eq_left (by linarith)]
        · rw [min_eq_right hc, max_eq_right (by linarith)]
          linarith
      · rcases le_total (3 * δ) w.totalRecoil.length with hc | hc
        · rw [max_eq_left (by rw [sub_nonneg]; exact hc)]
          linarith
        · rw [max_eq_right (by linarith)]
          exact hpos
    · intro hz
      rw [Frontend.updateRecoilRecovery_totalRecoil, if_neg (by rw [hz]; norm_num)]
    · rw [Frontend.updateRecoilRecovery_totalRecoil]
      exact recover_scale _ _ hr
  · intro w δ now hδ
    have hr : (0:ℝ) < Part004.RECOIL_RECOVERY * δ := by
      have : (0:ℝ) < Part004.RECOIL_RECOVERY := by norm_num [Part004.RECOIL_RECOVERY]
      positivity
    constructor
    · rw [Part004.updateRecoilRecovery_totalRecoil_p4, recover_length _ _ hr]
    · rw [Part004.updateRecoilRecovery_totalRecoil_p4]
      exact recover_scale _ _ hr
  · intro w now ds
    induction ds generalizing w with
    | nil => exact fun _ => le_refl _
    | cons d ds ih =>
      intro hall
      have hd : 0 < d := hall d (List.mem_cons_self d ds)
      calc (List.foldl (fun st d => (Frontend.updateRecoilRecovery st d now).2)
              ((Frontend.updateRecoilRecovery w d now).2) ds).totalRecoil.length
          ≤ (Frontend.updateRecoilRecovery w d now).2.totalRecoil.length :=
            ih _ (fun e he => hall e (List.mem_cons_of_mem d he))
        _ ≤ w.totalRecoil.length := Frontend.recovery_length_le w d now hd

/-- Claim C5 witness: one frontend recovery call on `totalRecoil = (3, 4)`
(magnitude 5) with `delta = 1`. -/
theorem claim5_recoil_recovery_witness :
    (0:ℝ) < 1 ∧
    (Frontend.updateRecoilRecovery ⟨0, ⟨3, 4⟩, 0⟩ 1 0).2.totalRecoil.length =
      max ((Vec2.mk 3 4).length - 3 * 1) 0 :=
  ⟨by norm_num, ((claim5_recoil_recovery.1 ⟨0, ⟨3, 4⟩, 0⟩ 1 0) (by norm_num)).1⟩

/-- Claim C4: from the fresh frontend weapon state, `N ≤ 5` `applyRecoil`
calls at multiplier 1 with no recovery leave `totalRecoil = 0.3 * (sum of
pattern[0..N))` and `recoilIndex = N`, and the `(N+1)`th call returns
`0.3 * pattern[N mod 5]`; after the full five calls `totalRecoil` is `0.3`
times the sum of the five pattern entries. -/
theorem claim4_recoil_accumulation :
    (∀ N : ℕ, N ≤ 5 →
      (Frontend.shootN N).totalRecoil =
        (vecSum (Frontend.glockRecoilPattern.take N)).multiplyScalar 0.3 ∧
      (Frontend.shootN N).recoilIndex = N ∧
      (Frontend.applyRecoil (Frontend.shootN N) 1 0).1 =
        (Frontend.glockRecoilPattern.getD (N % Frontend.glockRecoilPattern.length)
          Vec2.zero).multiplyScalar 0.3) ∧
    (Frontend.shootN 5).totalRecoil =
      (((((Vec2.mk 0 (-2.5)).add ⟨-0.5, -2.8⟩).add ⟨0.5, -3.0⟩).add ⟨-0.8, -3.2⟩).add
        ⟨1.0, -3.5⟩).multiplyScalar 0.3 := by
  have hidx : ∀ n, (Frontend.shootN n).recoilIndex = n := by
    intro n
    induction n with
    | zero => rfl
    | succ n ih =>
      show (Frontend.shootN n).recoilIndex + 1 = n + 1
      rw [ih]
  have ht : ∀ n, (Frontend.shootN (n + 1)).totalRecoil =
      (Frontend.shootN n).totalRecoil.add
        ((Frontend.glockRecoilPattern.getD (n % Frontend.glockRecoilPattern.length)
          Vec2.zero).multiplyScalar (0.3 * 1)) := by
    intro n
    show (Frontend.shootN n).totalRecoil.add
        ((Frontend.glockRecoilPattern.getD ((Frontend.shootN n).recoilIndex %
          Frontend.glockRecoilPattern.length) Vec2.zero).multiplyScalar (0.3 * 1)) = _
    rw [hidx n]
  have hp0 : Frontend.glockRecoilPattern.getD (0 % Frontend.glockRecoilPattern.length)
      Vec2.zero = ⟨0, -2.5⟩ := rfl
  have hp1 : Frontend.glockRecoilPattern.getD (1 % Frontend.glockRecoilPattern.length)
      Vec2.zero = ⟨-0.5, -2.8⟩ := rfl
  have hp2 : Frontend.glockRecoilPattern.getD (2 % Frontend.glockRecoilPattern.length)
      Vec2.zero = ⟨0.5, -3.0⟩ := rfl
  have hp3 : Frontend.glockRecoilPattern.getD (3 % Frontend.glockRecoilPattern.length)
      Vec2.zero = ⟨-0.8, -3.2⟩ := rfl
  have hp4 : Frontend.glockRecoilPattern.getD (4 % Frontend.glockRecoilPattern.length)
      Vec2.zero = ⟨1.0, -3.5⟩ := rfl
  have e0 : (Frontend.shootN 0).totalRecoil = Vec2.zero := rfl
  have e1 : (Frontend.shootN 1).totalRecoil =
      Vec2.zero.add ((Vec2.mk 0 (-2.5)).multiplyScalar (0.3 * 1)) := by
    rw [ht 0, e0, hp0]
  have e2 : (Frontend.shootN 2).totalRecoil =
      (Vec2.zero.add ((Vec2.mk 0 (-2.5)).multiplyScalar (0.3 * 1))).add
        ((Vec2.mk (-0.5) (-2.8)).multiplyScalar (0.3 * 1)) := by
    rw [ht 1, e1, hp1]
  have e3 : (Frontend.shootN 3).totalRecoil =
      ((Vec2.zero.add ((Vec2.mk 0 (-2.5)).multiplyScalar (0.3 * 1))).add
        ((Vec2.mk (-0.5) (-2.8)).multiplyScalar (0.3 * 1))).add
        ((Vec2.mk 0.5 (-3.0)).multiplyScalar (0.3 * 1)) := by
    rw [ht 2, e2, hp2]
  have e4 : (Frontend.shootN 4).totalRecoil =
      (((Vec2.zero.add ((Vec2.mk 0 (-2.5)).multiplyScalar (0.3 * 1))).add
        ((Vec2.mk (-0.5) (-2.8)).multiplyScalar (0.3 * 1))).add
        ((Vec2.mk 0.5 (-3.0)).multiplyScalar (0.3 * 1))).add
        ((Vec2.mk (-0.8) (-3.2)).multiplyScalar (0.3 * 1)) := by
    rw [ht 3, e3, hp3]
  have e5 : (Frontend.shootN 5).totalRecoil =
      ((((Vec2.zero.add ((Vec2.mk 0 (-2.5)).multiplyScalar (0.3 * 1))).add
        ((Vec2.mk (-0.5) (-2.8)).multiplyScalar (0.3 * 1))).add
        ((Vec2.mk 0.5 (-3.0)).multiplyScalar (0.3 * 1))).add
        ((Vec2.mk (-0.8) (-3.2)).multiplyScalar (0.3 * 1))).add
        ((Vec2.mk 1.0 (-3.5)).multiplyScalar (0.3 * 1)) := by
    rw [ht 4, e4, hp4]
  constructor
  · intro N hN
    refine ⟨?_, hidx N, ?_⟩
    · interval_cases N
      · rw [e0, show Frontend.glockRecoilPattern.take 0 = [] from rfl]
        ext <;> simp [vecSum, Vec2.zero, Vec2.multiplyScalar]
      · rw [e1, show Frontend.glockRecoilPattern.take 1 = [⟨0, -2.5⟩] from rfl]
        ext <;> norm_num [vecSum, Vec2.zero, Vec2.add, Vec2.multiplyScalar]
      · rw [e2, show Frontend.glockRecoilPattern.take 2 =
            [⟨0, -2.5⟩, ⟨-0.5, -2.8⟩] from rfl]
        ext <;> norm_num [vecSum, Vec2.zero, Vec2.add, Vec2.multiplyScalar]
      · rw [e3, show Frontend.glockRecoilPattern.take 3 =
            [⟨0, -2.5⟩, ⟨-0.5, -2.8⟩, ⟨0.5, -3.0⟩] from rfl]
        ext <;> norm_num [vecSum, Vec2.zero, Vec2.add, Vec2.multiplyScalar]
      · rw [e4, show Frontend.glockRecoilPattern.take 4 =
            [⟨0, -2.5⟩, ⟨-0.5, -2.8⟩, ⟨0.5, -3.0⟩, ⟨-0.8, -3.2⟩] from rfl]
        ext <;> norm_num [vecSum, Vec2.zero, Vec2.add, Vec2.multiplyScalar]
      · rw [e5, show Frontend.glockRecoilPattern.take 5 =
            [⟨0, -2.5⟩, ⟨-0.5, -2.8⟩, ⟨0.5, -3.0⟩, ⟨-0.8, -3.2⟩, ⟨1.0, -3.5⟩] from rfl]
        ext <;> norm_num [vecSum, Vec2.zero, Vec2.add, Vec2.multiplyScalar]
    · show (Frontend.glockRecoilPattern.getD ((Frontend.shootN N).recoilIndex %
          Frontend.glockRecoilPattern.length) Vec2.zero).multiplyScalar (0.3 * 1) = _
      rw [hidx N, mul_one]
  · rw [e5]
    ext <;> norm_num [Vec2.zero, Vec2.add, Vec2.multiplyScalar]

/-- Claim C4 witness: the accumulation evaluated at `N = 5`: five shots leave
`recoilIndex = 5`, and the sixth shot reads `pattern[5 mod 5] = pattern[0]`. -/
theorem claim4_recoil_accumulation_witness :
    (Frontend.shootN 5).recoilIndex = 5 ∧
    (Frontend.applyRecoil (Frontend.shootN 5) 1 0).1 =
      (Frontend.glockRecoilPattern.getD (5 % Frontend.glockRecoilPattern.length)
        Vec2.zero).multiplyScalar 0.3 :=
  ⟨(claim4_recoil_accumulation.1 5 (by norm_num)).2.1,
   (claim4_recoil_accumulation.1 5 (by norm_num)).2.2⟩

namespace Frontend

theorem gravityStep_isGrounded (s : MovementState) (δ : ℝ) :
    (gravityStep s δ).isGrounded = s.isGrounded := by
  unfold gravityStep
  split_ifs <;> rfl

theorem gravityStep_position (s : MovementState) (δ : ℝ) :
    (gravityStep s δ).position = s.position := by
  unfold gravityStep
  split_ifs <;> rfl

theorem gravityStep_currentHeight (s : MovementState) (δ : ℝ) :
    (gravityStep s δ).currentHeight = s.currentHeight := by
  unfold gravityStep
  split_ifs <;> rfl

theorem gravityStep_grounded (s : MovementState) (δ : ℝ) (h : s.isGrounded = true) :
    gravityStep s δ = s := by
  unfold gravityStep
  rw [if_pos h]

theorem moveStep_isGrounded (s : MovementState) (i : Input) (q : Quat) (δ : ℝ) :
    (moveStep s i q δ).isGrounded = s.isGrounded := by
  unfold moveStep
  dsimp only
  split_ifs <;> simp [accelerate_isGrounded, applyFriction_isGrounded]

theorem moveStep_position (s : MovementState) (i : Input) (q : Quat) (δ : ℝ) :
    (moveStep s i q δ).position = s.position := by
  unfold moveStep
  dsimp only
  split_ifs <;> simp [accelerate_position, applyFriction_position]

theorem moveStep_currentHeight (s : MovementState) (i : Input) (q : Quat) (δ : ℝ) :
    (moveStep s i q δ).currentHeight = s.currentHeight := by
  unfold moveStep
  dsimp only
  split_ifs <;> simp [accelerate_currentHeight, applyFriction_currentHeight]

theorem jumpStep_isGrounded (s : MovementState) (i : Input) :
    (jumpStep s i).isGrounded = (if i.jump && s.isGrounded then false else s.isGrounded) := by
  unfold jumpStep
  split_ifs <;> rfl

theorem jumpStep_position (s : MovementState) (i : Input) :
    (jumpStep s i).position = s.position := by
  unfold jumpStep
  split_ifs <;> rfl

theorem jumpStep_currentHeight (s : MovementState) (i : Input) :
    (jumpStep s i).currentHeight = s.currentHeight := by
  unfold jumpStep
  split_ifs <;> rfl

theorem integrateStep_currentHeight (s : MovementState) (δ : ℝ) :
    (integrateStep s δ).currentHeight = s.currentHeight := rfl

theorem integrateStep_velocity (s : MovementState) (δ : ℝ) :
    (integrateStep s δ).velocity = s.velocity := rfl

theorem integrateStep_position (s : MovementState) (δ : ℝ) :
    (integrateStep s δ).position = s.position.addScaledVector s.velocity δ := rfl

theorem applyFriction_velocity_y0 (s : MovementState) (δ : ℝ) (h : s.velocity.y = 0) :
    (applyFriction s δ).velocity.y = 0 := by
  unfold applyFriction
  dsimp only
  split_ifs <;> simp [Vec3.multiplyScalar, Vec3.zero, h]

/-- The smoothed eye height after the pre-ground steps. -/
theorem preGround_currentHeight (s : MovementState) (i : Input) (q : Quat) (δ : ℝ) :
    (preGround s i q δ).currentHeight =
      lerp s.currentHeight (if i.crouch then CROUCH_HEIGHT else HEAD_HEIGHT)
        (CROUCH_TRANSITION_SPEED * δ) := by
  unfold preGround
  rw [integrateStep_currentHeight, jumpStep_currentHeight, moveStep_currentHeight,
    gravityStep_currentHeight]
  rfl

/-- Position after the pre-ground steps: the old position advanced by the
post-step velocity times delta. -/
theorem preGround_position (s : MovementState) (i : Input) (q : Quat) (δ : ℝ) :
    (preGround s i q δ).position =
      s.position.addScaledVector (preGround s i q δ).velocity δ := by
  unfold preGround
  rw [integrateStep_position, integrateStep_velocity, jumpStep_position, moveStep_position,
    gravityStep_position]
  rfl

/-- The ground test reports grounded exactly when the integrated position is
at or below the current smoothed eye height. -/
theorem groundCheck_isGrounded_iff (t : MovementState) :
    (groundCheck t).isGrounded = true ↔ t.position.y ≤ t.currentHeight := by
  unfold groundCheck
  dsimp only
  split_ifs with h <;> simp [h]

theorem groundCheck_position_y (t : MovementState) (h : t.position.y ≤ t.currentHeight) :
    (groundCheck t).position.y = t.currentHeight := by
  unfold groundCheck
  dsimp only
  rw [if_pos h]

/-- The ground test reports airborne when the integrated position is above
the current smoothed eye height. -/
theorem groundCheck_isGrounded_false (t : MovementState)
    (h : ¬ t.position.y ≤ t.currentHeight) : (groundCheck t).isGrounded = false := by
  unfold groundCheck
  dsimp only
  rw [if_neg h]

/-- With the jump bit cleared the jump step is the identity. -/
theorem jumpStep_nojump (s : MovementState) (i : Input) (h : i.jump = false) :
    jumpStep s i = s := by
  unfold jumpStep
  rw [if_neg]
  rw [h]
  simp

/-- With the grounded flag already cleared, the jump bit is irrelevant to a
frontend tick. -/
theorem updateMovement_jump_irrelevant (s : MovementState) (i : Input) (q : Quat) (δ : ℝ)
    (hg : s.isGrounded = false) :
    updateMovement s i q δ = updateMovement s { i with jump := false } q δ := by
  unfold updateMovement preGround
  have hmg : (moveStep (gravityStep (crouchStep s i δ) δ) i q δ).isGrounded = false := by
    rw [moveStep_isGrounded, gravityStep_isGrounded]
    exact hg
  have hj1 : jumpStep (moveStep (gravityStep (crouchStep s i δ) δ) i q δ) i =
      moveStep (gravityStep (crouchStep s i δ) δ) i q δ := by
    unfold jumpStep
    rw [if_neg]
    rw [hmg]
    simp
  have hj2 : jumpStep (moveStep (gravityStep (crouchStep s { i with jump := false } δ) δ)
        { i with jump := false } q δ) { i with jump := false } =
      moveStep (gravityStep (crouchStep s { i with jump := false } δ) δ)
        { i with jump := false } q δ := by
    unfold jumpStep
    rw [if_neg]
    simp
  rw [hj1, hj2]
  rfl

end Frontend

/-- With both input axes at zero the raw wish vector is the zero vector. -/
theorem wishRaw_zero_input (q : Quat) (j c : Bool) :
    wishRaw ⟨0, 0, j, c⟩ q = Vec3.zero := by
  ext <;> simp [wishRaw, Vec3.addScaledVector, Vec3.zero]

/-- Claim C10: after every frontend tick, `isGrounded` is true exactly when
the integrated `position.y` is at or below the current smoothed eye height,
and a grounded result has `position.y` clamped to that height exactly.  With
the grounded flag cleared, jump requests are refused (the jump bit is
irrelevant to the tick).  Consequently (last conjunct) starting a crouch
while standing at rest marks the character airborne: the height drops below
the unchanged position in one tick. -/
theorem claim10_ground_iff :
    (∀ (s : Frontend.MovementState) (i : Input) (q : Quat) (δ : ℝ),
      ((Frontend.updateMovement s i q δ).isGrounded = true ↔
        (Frontend.preGround s i q δ).position.y ≤
          (Frontend.preGround s i q δ).currentHeight) ∧
      ((Frontend.updateMovement s i q δ).isGrounded = true →
        (Frontend.updateMovement s i q δ).position.y =
          (Frontend.preGround s i q δ).currentHeight)) ∧
    (∀ (s : Frontend.MovementState) (i : Input) (q : Quat) (δ : ℝ),
      s.isGrounded = false →
      Frontend.updateMovement s i q δ = Frontend.updateMovement s { i with jump := false } q δ) ∧
    (∀ (s : Frontend.MovementState) (q : Quat) (δ : ℝ),
      0 < δ → s.velocity = Vec3.zero → s.isGrounded = true →
      s.currentHeight = Frontend.HEAD_HEIGHT → s.position.y = Frontend.HEAD_HEIGHT →
      (Frontend.updateMovement s ⟨0, 0, false, true⟩ q δ).isGrounded = false) := by
  refine ⟨?_, Frontend.updateMovement_jump_irrelevant, ?_⟩
  · intro s i q δ
    constructor
    · exact Frontend.groundCheck_isGrounded_iff (Frontend.preGround s i q δ)
    · intro h
      exact Frontend.groundCheck_position_y _
        ((Frontend.groundCheck_isGrounded_iff _).mp h)
  · intro s q δ hδ hv hg hch hpy
    have hL : ¬ (wishRaw ⟨0, 0, false, true⟩ q).length > 0.001 := by
      rw [wishRaw_zero_input]
      unfold Vec3.length Vec3.zero
      norm_num
    have hgrav : Frontend.gravityStep (Frontend.crouchStep s ⟨0, 0, false, true⟩ δ) δ =
        Frontend.crouchStep s ⟨0, 0, false, true⟩ δ :=
      Frontend.gravityStep_grounded _ _ hg
    have hmv : Frontend.moveStep (Frontend.gravityStep
        (Frontend.crouchStep s ⟨0, 0, false, true⟩ δ) δ) ⟨0, 0, false, true⟩ q δ =
        Frontend.applyFriction (Frontend.gravityStep
          (Frontend.crouchStep s ⟨0, 0, false, true⟩ δ) δ) δ := by
      unfold Frontend.moveStep
      dsimp only
      rw [if_neg hL]
    have hvy : (Frontend.preGround s ⟨0, 0, false, true⟩ q δ).velocity.y = 0 := by
      unfold Frontend.preGround
      rw [Frontend.integrateStep_velocity, Frontend.jumpStep_nojump _ _ rfl, hmv, hgrav]
      refine Frontend.applyFriction_velocity_y0 _ _ ?_
      rw [show (Frontend.crouchStep s ⟨0, 0, false, true⟩ δ).velocity = s.velocity from rfl,
        hv]
      rfl
    have hyint : (Frontend.preGround s ⟨0, 0, false, true⟩ q δ).position.y =
        s.position.y + 0 * δ := by
      have hp := Frontend.preGround_position s ⟨0, 0, false, true⟩ q δ
      calc (Frontend.preGround s ⟨0, 0, false, true⟩ q δ).position.y
          = (s.position.addScaledVector
              (Frontend.preGround s ⟨0, 0, false, true⟩ q δ).velocity δ).y := by rw [hp]
        _ = s.position.y +
            (Frontend.preGround s ⟨0, 0, false, true⟩ q δ).velocity.y * δ := rfl
        _ = s.position.y + 0 * δ := by rw [hvy]
    have hh : (Frontend.preGround s ⟨0, 0, false, true⟩ q δ).currentHeight =
        Frontend.lerp Frontend.HEAD_HEIGHT Frontend.CROUCH_HEIGHT
          (Frontend.CROUCH_TRANSITION_SPEED * δ) := by
      rw [Frontend.preGround_currentHeight, hch]
      rfl
    refine Frontend.groundCheck_isGrounded_false _ ?_
    rw [hyint, hh, hpy]
    unfold Frontend.lerp Frontend.HEAD_HEIGHT Frontend.CROUCH_HEIGHT
      Frontend.CROUCH_TRANSITION_SPEED
    push_neg
    nlinarith

/-- Claim C10 witness: starting a crouch from the standing initial state with
`delta = 0.016` leaves the character airborne after the tick. -/
theorem claim10_ground_iff_witness :
    (Frontend.updateMovement Frontend.initState ⟨0, 0, false, true⟩
        ⟨0, 0, 0, 1⟩ 0.016).isGrounded = false :=
  claim10_ground_iff.2.2 Frontend.initState ⟨0, 0, 0, 1⟩ 0.016 (by norm_num) rfl rfl rfl rfl

/-- The diagonal wish direction has no vertical component. -/
theorem diagU_y (q : Quat) : (diagU q).y = 0 := by
  unfold diagU
  simp [Vec3.divideScalar, Vec3.multiplyScalar, wishRaw_y]

/-- When the raw diagonal wish vector is nonzero, its normalization is a unit
horizontal vector. -/
theorem diagU_sq (q : Quat) (h : (wishRaw diagInput q).length ≠ 0) :
    (diagU q).x * (diagU q).x + (diagU q).z * (diagU q).z = 1 := by
  have hy := wishRaw_y diagInput q
  have hm := (wishRaw diagInput q).mul_self_length
  rw [hy] at hm
  unfold diagU
  simp only [Vec3.divideScalar, Vec3.multiplyScalar]
  field_simp
  nlinarith [hm]

/-- When the raw diagonal wish vector has zero length, the normalized
direction is the zero vector (by the `1/0 = 0` convention). -/
theorem diagU_zero (q : Quat) (h : (wishRaw diagInput q).length = 0) :
    (diagU q).x = 0 ∧ (diagU q).z = 0 := by
  unfold diagU
  rw [h]
  simp [Vec3.divideScalar, Vec3.multiplyScalar]

namespace Frontend

theorem crouchStep_velocity (s : MovementState) (i : Input) (δ : ℝ) :
    (crouchStep s i δ).velocity = s.velocity := rfl

theorem gravityStep_velocity_x (s : MovementState) (δ : ℝ) :
    (gravityStep s δ).velocity.x = s.velocity.x := by
  unfold gravityStep
  split_ifs <;> rfl

theorem gravityStep_velocity_z (s : MovementState) (δ : ℝ) :
    (gravityStep s δ).velocity.z = s.velocity.z := by
  unfold gravityStep
  split_ifs <;> rfl

/-- Source-style acceleration keeps a velocity collinear with a horizontal
unit wish direction collinear, and the collinear coefficient stays within
`[0, 13/5]` whenever the wish speed does: the projection cap
`min(accel*delta*wishSpeed, wishSpeed - currentSpeed)` never pushes the speed
along the wish direction past the wish speed. -/
theorem accelerate_planar (s : MovementState) (u : Vec3) (ws ac δ a : ℝ)
    (huy : u.y = 0) (hσ : u.x * u.x + u.z * u.z = 1)
    (hx : s.velocity.x = a * u.x) (hz : s.velocity.z = a * u.z)
    (ha0 : 0 ≤ a) (ha : a ≤ 13 / 5) (hws : ws ≤ 13 / 5) (hacc : 0 ≤ ac * δ * ws) :
    ∃ b, 0 ≤ b ∧ b ≤ 13 / 5 ∧ (accelerate s u ws ac δ).velocity.x = b * u.x ∧
      (accelerate s u ws ac δ).velocity.z = b * u.z := by
  have hdot : s.velocity.dot u = a := by
    unfold Vec3.dot
    rw [hx, hz, huy, mul_zero]
    linear_combination a * hσ
  unfold accelerate
  dsimp only
  rw [hdot]
  split_ifs with h
  · exact ⟨a, ha0, ha, hx, hz⟩
  · push_neg at h
    refine ⟨a + min (ac * δ * ws) (ws - a), ?_, ?_, ?_, ?_⟩
    · have h2 := le_min hacc h.le
      linarith
    · have h2 := min_le_right (ac * δ * ws) (ws - a)
      linarith
    · show s.velocity.x + u.x * _ = _
      rw [hx]
      ring
    · show s.velocity.z + u.z * _ = _
      rw [hz]
      ring

/-- One frontend move step (friction plus acceleration with the diagonal
input) keeps the planar velocity collinear with the diagonal wish direction
with a coefficient in `[0, 13/5]`. -/
theorem moveStep_planar (s : MovementState) (q : Quat) (δ a : ℝ) (hδ : 0 < δ)
    (ha0 : 0 ≤ a) (ha : a ≤ 13 / 5)
    (hx : s.velocity.x = a * (diagU q).x) (hz : s.velocity.z = a * (diagU q).z) :
    ∃ b, 0 ≤ b ∧ b ≤ 13 / 5 ∧
      (moveStep s diagInput q δ).velocity.x = b * (diagU q).x ∧
      (moveStep s diagInput q δ).velocity.z = b * (diagU q).z := by
  obtain ⟨c, hc0, hc1, hcv⟩ := applyFriction_scale s δ hδ.le
  have hfx : (applyFriction s δ).velocity.x = a * c * (diagU q).x := by
    rw [hcv]
    show s.velocity.x * c = _
    rw [hx]
    ring
  have hfz : (applyFriction s δ).velocity.z = a * c * (diagU q).z := by
    rw [hcv]
    show s.velocity.z * c = _
    rw [hz]
    ring
  have hb0 : 0 ≤ a * c := mul_nonneg ha0 hc0
  have hb1 : a * c ≤ 13 / 5 := le_trans (mul_le_of_le_one_right ha0 hc1) ha
  unfold moveStep
  dsimp only
  by_cases hL : (wishRaw diagInput q).length > 0.001
  · rw [if_pos hL,
      show (wishRaw diagInput q).divideScalar (wishRaw diagInput q).length = diagU q
        from rfl]
    have hne : (wishRaw diagInput q).length ≠ 0 :=
      (lt_trans (by norm_num) hL).ne'
    have hσ := diagU_sq q hne
    have haux : ∀ W A : ℝ, 0 ≤ W → W ≤ 13 / 5 → 0 ≤ A →
        ∃ b, 0 ≤ b ∧ b ≤ 13 / 5 ∧
          (accelerate (applyFriction s δ) (diagU q)
            (min (wishRaw diagInput q).length 1 * W) A δ).velocity.x = b * (diagU q).x ∧
          (accelerate (applyFriction s δ) (diagU q)
            (min (wishRaw diagInput q).length 1 * W) A δ).velocity.z = b * (diagU q).z := by
      intro W A hW0 hW1 hA0
      have hmin0 : 0 ≤ min (wishRaw diagInput q).length 1 :=
        le_min (Vec3.length_nonneg _) zero_le_one
      refine accelerate_planar _ _ _ _ _ _ (diagU_y q) hσ hfx hfz hb0 hb1 ?_ ?_
      · exact le_trans (mul_le_of_le_one_left hW0 (min_le_right _ _)) hW1
      · exact mul_nonneg (mul_nonneg hA0 hδ.le) (mul_nonneg hmin0 hW0)
    split_ifs <;>
      exact haux _ _ (by norm_num [CROUCH_MOVE_SPEED, WALK_SPEED])
        (by norm_num [CROUCH_MOVE_SPEED, WALK_SPEED])
        (by norm_num [ACCELERATION, AIR_ACCELERATION])
  · rw [if_neg hL]
    exact ⟨a * c, hb0, hb1, hfx, hfz⟩

/-- One full frontend tick with the diagonal input preserves the collinear
planar-velocity invariant. -/
theorem diag_step (q : Quat) (δ : ℝ) (hδ : 0 < δ) (s : MovementState) (a : ℝ)
    (ha0 : 0 ≤ a) (ha : a ≤ 13 / 5)
    (hx : s.velocity.x = a * (diagU q).x) (hz : s.velocity.z = a * (diagU q).z) :
    ∃ b, 0 ≤ b ∧ b ≤ 13 / 5 ∧
      (updateMovement s diagInput q δ).velocity.x = b * (diagU q).x ∧
      (updateMovement s diagInput q δ).velocity.z = b * (diagU q).z := by
  have hgx : (gravityStep (crouchStep s diagInput δ) δ).velocity.x = a * (diagU q).x := by
    rw [gravityStep_velocity_x, crouchStep_velocity, hx]
  have hgz : (gravityStep (crouchStep s diagInput δ) δ).velocity.z = a * (diagU q).z := by
    rw [gravityStep_velocity_z, crouchStep_velocity, hz]
  obtain ⟨b, hb0, hb1, hbx, hbz⟩ :=
    moveStep_planar (gravityStep (crouchStep s diagInput δ) δ) q δ a hδ ha0 ha hgx hgz
  refine ⟨b, hb0, hb1, ?_, ?_⟩
  · unfold updateMovement preGround
    rw [groundCheck_velocity_x, jumpStep_nojump _ _ rfl]
    exact hbx
  · unfold updateMovement preGround
    rw [groundCheck_velocity_z, jumpStep_nojump _ _ rfl]
    exact hbz

end Frontend

/-- Claim C3: from rest in a grounded state, holding `forward = 1, right = 1`
for any number of ticks (any fixed camera quaternion, `delta > 0`), the planar
speed `|(velocity.x, velocity.z)|` after every tick never exceeds
`WALK_SPEED`, the single-axis maximum: the combined wish vector is divided by
its own length before use, so diagonal input gives no speed boost. -/
theorem claim3_no_diagonal_boost (q : Quat) (δ : ℝ) (s0 : Frontend.MovementState) (n : ℕ)
    (hδ : 0 < δ) (hv : s0.velocity = Vec3.zero) (hg : s0.isGrounded = true) :
    (Vec2.mk (Frontend.ticks diagInput q δ n s0).velocity.x
      (Frontend.ticks diagInput q δ n s0).velocity.z).length ≤ Frontend.WALK_SPEED := by
  have hinv : ∀ m, ∃ a, 0 ≤ a ∧ a ≤ 13 / 5 ∧
      (Frontend.ticks diagInput q δ m s0).velocity.x = a * (diagU q).x ∧
      (Frontend.ticks diagInput q δ m s0).velocity.z = a * (diagU q).z := by
    intro m
    induction m with
    | zero =>
      refine ⟨0, le_refl 0, by norm_num, ?_, ?_⟩
      · show s0.velocity.x = 0 * (diagU q).x
        rw [hv]
        simp [Vec3.zero]
      · show s0.velocity.z = 0 * (diagU q).z
        rw [hv]
        simp [Vec3.zero]
    | succ m ih =>
      obtain ⟨a, h0, h1, hx, hz⟩ := ih
      exact Frontend.diag_step q δ hδ _ a h0 h1 hx hz
  obtain ⟨a, h0, h1, hx, hz⟩ := hinv n
  have hbound : (Vec2.mk (a * (diagU q).x) (a * (diagU q).z)).length ≤ 13 / 5 := by
    unfold Vec2.length
    by_cases hL : (wishRaw diagInput q).length = 0
    · obtain ⟨hux, huz⟩ := diagU_zero q hL
      rw [hux, huz]
      norm_num
    · have hσ := diagU_sq q hL
      have hsq : a * (diagU q).x * (a * (diagU q).x) +
          a * (diagU q).z * (a * (diagU q).z) = a ^ 2 := by
        linear_combination (a ^ 2) * hσ
      rw [hsq, Real.sqrt_sq h0]
      exact h1
  rw [hx, hz]
  calc (Vec2.mk (a * (diagU q).x) (a * (diagU q).z)).length ≤ 13 / 5 := hbound
    _ = Frontend.WALK_SPEED := by norm_num [Frontend.WALK_SPEED]

/-- Claim C3 witness: the planar-speed bound after three ticks from the
initial state with the identity camera and `delta = 0.016`. -/
theorem claim3_no_diagonal_boost_witness :
    (Vec2.mk (Frontend.ticks diagInput ⟨0, 0, 0, 1⟩ 0.016 3 Frontend.initState).velocity.x
      (Frontend.ticks diagInput ⟨0, 0, 0, 1⟩ 0.016 3 Frontend.initState).velocity.z).length ≤
      Frontend.WALK_SPEED :=
  claim3_no_diagonal_boost ⟨0, 0, 0, 1⟩ 0.016 Frontend.initState 3 (by norm_num) rfl rfl

/-- Claim C9 witness: the part_004 echo conjunct evaluated on the first
crouch tick from the initial state. -/
theorem claim9_isCrouching_amended_witness :
    (Part004.updateMovement Part004.initState ⟨0, 0, false, true⟩
        ⟨0, 0, 0, 1⟩ 0.016).isCrouching = true :=
  claim9_isCrouching_amended.2.1 Part004.initState ⟨0, 0, false, true⟩ ⟨0, 0, 0, 1⟩ 0.016
